import Mathlib

/-!
Verification development for the tokentrim prompt/log optimization engine.

Strings are embedded as `List Char`.  JavaScript numbers are embedded as
`Nat`/`Int` with exact rational rounding where `Math.ceil`/`Math.round`
appear (the divisors 3.5, 0.95, 0.5, 0.3 are modelled as the rationals
7/2, 19/20, 1/2, 3/10; for the string lengths reachable here the IEEE
double computations in the source agree with the exact rationals).

Each regular expression of the source is embedded as an executable
matcher over `List Char`; the doc comment of each matcher cites the
regex literal it embeds.
-/

set_option maxRecDepth 100000

/-- Strings of the embedded program: lists of characters. -/
abbrev Str := List Char

/-- The apostrophe character (U+0027), built numerically. -/
def apoChar : Char := Char.ofNat 39

/-- JavaScript `\s` on the ASCII range: space, tab, LF, VT, FF, CR. -/
def isWsChar (c : Char) : Bool :=
  c = ' ' || c = '\t' || c = '\n' || c = Char.ofNat 11 || c = Char.ofNat 12 || c = '\r'

/-- ASCII decimal digit (JavaScript `\d`). -/
def isDigitChar (c : Char) : Bool :=
  '0' ≤ c && c ≤ '9'

/-- ASCII uppercase letter (`[A-Z]`). -/
def isUpperChar (c : Char) : Bool :=
  'A' ≤ c && c ≤ 'Z'

/-- ASCII lowercase letter (`[a-z]`). -/
def isLowerChar (c : Char) : Bool :=
  'a' ≤ c && c ≤ 'z'

/-- JavaScript `\w`: letters, digits and underscore. -/
def isWordChar (c : Char) : Bool :=
  isDigitChar c || isUpperChar c || isLowerChar c || c = '_'

/-- ASCII lower-casing of one character (JavaScript `toLowerCase` on ASCII). -/
def lowerChar (c : Char) : Char :=
  if isUpperChar c then Char.ofNat (c.toNat + 32) else c

/-- ASCII lower-casing of a string. -/
def lowerStr (s : Str) : Str := s.map lowerChar

/-- `String.prototype.trim`: strip leading and trailing whitespace. -/
def jsTrim (s : Str) : Str :=
  ((s.dropWhile isWsChar).reverse.dropWhile isWsChar).reverse

/-- `split('\n')`. -/
def splitNl : Str → List Str
  | [] => [[]]
  | '\n' :: t => [] :: splitNl t
  | c :: t =>
    match splitNl t with
    | [] => [[c]]
    | l :: ls => (c :: l) :: ls

/-- `join('\n')`. -/
def joinNl (ls : List Str) : Str := List.intercalate ['\n'] ls

/-- Does `s` start with `pat`? -/
def pfxOf : Str → Str → Bool
  | [], _ => true
  | _ :: _, [] => false
  | p :: ps, c :: cs => p = c && pfxOf ps cs

/-- Case-insensitive prefix test. -/
def pfxOfCI (pat s : Str) : Bool := pfxOf (lowerStr pat) (lowerStr s)

/-- `String.prototype.includes`: substring occurrence. -/
def hasSub (pat : Str) : Str → Bool
  | [] => pfxOf pat []
  | c :: t => pfxOf pat (c :: t) || hasSub pat t

/-- Case-insensitive substring occurrence. -/
def hasSubCI (pat s : Str) : Bool := hasSub (lowerStr pat) (lowerStr s)

/-- Does some suffix of `s` satisfy `P`?  (Unanchored regex search.) -/
def anySfx (P : Str → Bool) : Str → Bool
  | [] => P []
  | c :: t => P (c :: t) || anySfx P t

/-- Does some suffix of `s` satisfy `P prev`, where `prev` is the character
just before the suffix (`none` at the start of the string)?  Used for `\b`. -/
def anySfxCtx (P : Option Char → Str → Bool) (s : Str) : Bool :=
  P none s ||
  (let rec go : Str → Bool
    | [] => false
    | c :: t => P (some c) t || go t
   go s)

/-- Does `P` hold at some line start (position 0 or just after a newline)?
Embeds the `m`-flag anchor `^`. -/
def anyLineStart (P : Str → Bool) (s : Str) : Bool :=
  P s ||
  (let rec go : Str → Bool
    | [] => false
    | '\n' :: t => P t || go t
    | _ :: t => go t
   go s)

/-- Consume a literal, returning the rest. -/
def pLit (pat s : Str) : Option Str :=
  if pfxOf pat s then some (s.drop pat.length) else none

/-- Consume a literal case-insensitively. -/
def pLitCI (pat s : Str) : Option Str :=
  if pfxOfCI pat s then some (s.drop pat.length) else none

/-- Consume one-or-more whitespace characters (`\s+`). -/
def pWs1 (s : Str) : Option Str :=
  match s with
  | c :: t => if isWsChar c then some (t.dropWhile isWsChar) else none
  | [] => none

/-- Consume zero-or-more whitespace characters (`\s*`). -/
def pWs0 (s : Str) : Str := s.dropWhile isWsChar

/-- Consume one-or-more digits (`\d+`), returning them and the rest. -/
def pDigits1 (s : Str) : Option (Str × Str) :=
  let d := s.takeWhile isDigitChar
  if d.isEmpty then none else some (d, s.drop d.length)

/-- Consume exactly `n` digits (`\d{n}`). -/
def pDigitsN : Nat → Str → Option Str
  | 0, s => some s
  | n + 1, c :: t => if isDigitChar c then pDigitsN n t else none
  | _ + 1, [] => none

/-- Consume one-or-more word characters (`\w+`). -/
def pWord1 (s : Str) : Option (Str × Str) :=
  let w := s.takeWhile isWordChar
  if w.isEmpty then none else some (w, s.drop w.length)

/-- Consume one-or-more non-whitespace characters (`\S+`). -/
def pNonWs1 (s : Str) : Option (Str × Str) :=
  let w := s.takeWhile (fun c => !isWsChar c)
  if w.isEmpty then none else some (w, s.drop w.length)

/-- The capture of `\s*(.+)` applied to `t` (a single line): the greedy
whitespace run backtracks just enough to leave at least one character.
Returns `none` when `t` is empty (`.+` needs a character). -/
def capAfterWs (t : Str) : Option Str :=
  if t.isEmpty then none
  else
    let j := (t.takeWhile isWsChar).length
    some (t.drop (min j (t.length - 1)))

/-- `slice(0, n)` on strings. -/
def jsSlice (n : Nat) (s : Str) : Str := s.take n

namespace LocalOptimizer

/-- Embeds the test `/``` ... ```/`-triple-backtick alternative of the
`hasCode` regex: three consecutive backticks somewhere in the string. -/
def hasTripleBacktick : Str → Bool
  | '`' :: '`' :: '`' :: _ => true
  | _ :: t => hasTripleBacktick t
  | [] => false

/-- After an opening backtick and at least one non-backtick, is there a
closing backtick later (all skipped characters are non-backticks)? -/
def closesSpan : Str → Bool
  | [] => false
  | '`' :: _ => true
  | _ :: t => closesSpan t

/-- Embeds the inline-span alternative of the `hasCode` regex: a backtick,
one-or-more non-backticks, then a backtick. -/
def hasInlineSpan : Str → Bool
  | [] => false
  | '`' :: t =>
    (match t with
     | c :: t2 => (decide (c ≠ '`') && closesSpan t2)
     | [] => false) || hasInlineSpan t
  | _ :: t => hasInlineSpan t

/-- The code-detection regex of `LocalOptimizer.estimateTokens`
(part_005 line 20): triple backtick or backtick-delimited inline span. -/
def hasCode (s : Str) : Bool := hasTripleBacktick s || hasInlineSpan s

/-- `LocalOptimizer.estimateTokens` (part_005 lines 18-22):
`if (!text) return 0;` then `Math.ceil(text.length / (hasCode ? 3.5 : 4))`.
`!text` is true exactly for the empty string.  `ceil(n/3.5) = (2n+6)/7`
and `ceil(n/4) = (n+3)/4` in natural-number division. -/
def estimateTokens (s : Str) : Nat :=
  if s.isEmpty then 0
  else if hasCode s then (2 * s.length + 6) / 7
  else (s.length + 3) / 4

end LocalOptimizer

namespace BackendUsers

/-- The code-detection test of the backend `estimateTokens`
(users.ts lines 428-434): `text.includes('``' ++ '`') || text.includes('`')`. -/
def hasCode (s : Str) : Bool :=
  hasSub ['`', '`', '`'] s || hasSub ['`'] s

/-- Backend `estimateTokens` (users.ts lines 428-434): no empty-string
guard; `Math.ceil(text.length / (hasCode ? 3.5 : 4))`. -/
def estimateTokens (s : Str) : Nat :=
  if hasCode s then (2 * s.length + 6) / 7
  else (s.length + 3) / 4

end BackendUsers

/-- Position after the next newline, if any. -/
def dropToNl : Str → Option Str
  | [] => none
  | '\n' :: t => some t
  | _ :: t => dropToNl t

/-- Is the first character a digit? -/
def headDigit (s : Str) : Bool :=
  match s with
  | c :: _ => isDigitChar c
  | [] => false

/-- Is the first character a word character? -/
def headWord (s : Str) : Bool :=
  match s with
  | c :: _ => isWordChar c
  | [] => false

/-- One-or-more characters of class `cls`, then the literal `lit`, then a
position satisfying `k` (embeds shapes like `\w+Error:` or `\S+\.go:`,
where every character of `lit` also belongs to `cls`). -/
def runThen (cls : Char → Bool) (lit : Str) (k : Str → Bool) : Str → Bool
  | [] => false
  | c :: t =>
    cls c &&
      ((match pLit lit t with
        | some r => k r
        | none => false) || runThen cls lit k t)

namespace LocalOptimizer

/-- Segment between parentheses for indicator 1: full match of
`[^)]+:\d+:\d+` (the segment itself contains no closing parenthesis). -/
def jsFrameSeg (seg : Str) : Bool :=
  let r := seg.reverse
  match pDigits1 r with
  | none => false
  | some (_, r1) =>
    match r1 with
    | ':' :: r2 =>
      match pDigits1 r2 with
      | none => false
      | some (_, r3) =>
        match r3 with
        | ':' :: r4 => !r4.isEmpty
        | _ => false
    | _ => false

/-- Indicator 1, at one position: `/\bat\s+\S+\s+\([^)]+:\d+:\d+\)/i`
(JS stack trace `at Function (file:line:col)`). -/
def ind01at (prev : Option Char) (s : Str) : Bool :=
  (match prev with
   | none => true
   | some c => !isWordChar c) &&
  (match pLitCI "at".data s with
   | none => false
   | some s1 =>
     match pWs1 s1 with
     | none => false
     | some s2 =>
       match pNonWs1 s2 with
       | none => false
       | some (_, s3) =>
         match pWs1 s3 with
         | none => false
         | some s4 =>
           match s4 with
           | '(' :: rest =>
             let seg := rest.takeWhile (fun c => decide (c ≠ ')'))
             decide (seg.length < rest.length) && jsFrameSeg seg
           | _ => false)

/-- Indicator 1: `/\bat\s+\S+\s+\([^)]+:\d+:\d+\)/i`. -/
def ind01 (s : Str) : Bool := anySfxCtx ind01at s

/-- Indicator 2, at one line start: `\s*at\s+` (whitespace may cross
newlines, `at` is case-sensitive). -/
def ind02at (s : Str) : Bool :=
  match pLit "at".data (pWs0 s) with
  | some s1 => (pWs1 s1).isSome
  | none => false

/-- Indicator 2: `/^\s*at\s+/m` (lines starting with `at `). -/
def ind02 (s : Str) : Bool := anyLineStart ind02at s

/-- Indicator 3, at one position: `FAIL\s+\S+\.test\.[jt]s` (CI). -/
def ind03at (s : Str) : Bool :=
  match pLitCI "FAIL".data s with
  | none => false
  | some s1 =>
    match pWs1 s1 with
    | none => false
    | some s2 =>
      match s2.takeWhile (fun c => !isWsChar c) with
      | [] => false
      | _ :: rt =>
        anySfx (fun t => pfxOfCI ".test.js".data t || pfxOfCI ".test.ts".data t) rt

/-- Indicator 3: `/FAIL\s+\S+\.test\.[jt]s/i` (Jest test failures). -/
def ind03 (s : Str) : Bool := anySfx ind03at s

/-- Indicator 4, at one position: `Error:.*\n\s+at\s+`. -/
def ind04at (s : Str) : Bool :=
  match pLit "Error:".data s with
  | none => false
  | some s1 =>
    match dropToNl s1 with
    | none => false
    | some s2 =>
      match pWs1 s2 with
      | none => false
      | some s3 =>
        match pLit "at".data s3 with
        | none => false
        | some s4 => (pWs1 s4).isSome

/-- Indicator 4: `/Error:.*\n\s+at\s+/` (error followed by stack). -/
def ind04 (s : Str) : Bool := anySfx ind04at s

/-- Indicator 5: `/Module not found/i`. -/
def ind05 (s : Str) : Bool := hasSubCI "Module not found".data s

/-- Indicator 6, at one position: `webpack compiled with \d+ error` (CI). -/
def ind06at (s : Str) : Bool :=
  match pLitCI "webpack compiled with ".data s with
  | none => false
  | some s1 =>
    match pDigits1 s1 with
    | none => false
    | some (_, s2) => pfxOfCI " error".data s2

/-- Indicator 6: `/webpack compiled with \d+ error/i`. -/
def ind06 (s : Str) : Bool := anySfx ind06at s

/-- Indicator 7: `/npm ERR!/`. -/
def ind07 (s : Str) : Bool := hasSub "npm ERR!".data s

/-- Indicator 8: `/ENOENT|EACCES|ECONNREFUSED/`. -/
def ind08 (s : Str) : Bool :=
  hasSub "ENOENT".data s || hasSub "EACCES".data s || hasSub "ECONNREFUSED".data s

/-- Indicator 9, at one position:
`\d+\s*\|\s*(const|let|var|function|class|import|return|if|for|while)`. -/
def ind09at (s : Str) : Bool :=
  match pDigits1 s with
  | none => false
  | some (_, s1) =>
    match pWs0 s1 with
    | '|' :: s2 =>
      let s3 := pWs0 s2
      pfxOf "const".data s3 || pfxOf "let".data s3 || pfxOf "var".data s3 ||
      pfxOf "function".data s3 || pfxOf "class".data s3 || pfxOf "import".data s3 ||
      pfxOf "return".data s3 || pfxOf "if".data s3 || pfxOf "for".data s3 ||
      pfxOf "while".data s3
    | _ => false

/-- Indicator 9 (code with line numbers). -/
def ind09 (s : Str) : Bool := anySfx ind09at s

/-- Indicator 10: `/exit code: \d+/i`. -/
def ind10 (s : Str) : Bool :=
  anySfx (fun t =>
    match pLitCI "exit code: ".data t with
    | some r => headDigit r
    | none => false) s

/-- Indicator 11: `/##\[error\]/i`. -/
def ind11 (s : Str) : Bool := hasSubCI "##[error]".data s

/-- Indicator 12, at one position: Spring Boot log format
`\d{4}-\d{2}-\d{2}\s+\d{2}:\d{2}:\d{2}\.\d+\s+(INFO|WARN|ERROR|DEBUG)`. -/
def ind12at (s : Str) : Bool :=
  (do
    let s ← pDigitsN 4 s
    let s ← pLit "-".data s
    let s ← pDigitsN 2 s
    let s ← pLit "-".data s
    let s ← pDigitsN 2 s
    let s ← pWs1 s
    let s ← pDigitsN 2 s
    let s ← pLit ":".data s
    let s ← pDigitsN 2 s
    let s ← pLit ":".data s
    let s ← pDigitsN 2 s
    let s ← pLit ".".data s
    let (_, s) ← pDigits1 s
    let s ← pWs1 s
    if pfxOf "INFO".data s || pfxOf "WARN".data s || pfxOf "ERROR".data s ||
        pfxOf "DEBUG".data s then some () else none).isSome

/-- Indicator 12 (Spring Boot log format). -/
def ind12 (s : Str) : Bool := anySfx ind12at s

/-- Indicator 13, at one position: `Caused by:\s+\w+\.\w+Exception`. -/
def ind13at (s : Str) : Bool :=
  (do
    let s ← pLit "Caused by:".data s
    let s ← pWs1 s
    let (_, s) ← pWord1 s
    let s ← pLit ".".data s
    if runThen isWordChar "Exception".data (fun _ => true) s then some () else none).isSome

/-- Indicator 13: `/Caused by:\s+\w+\.\w+Exception/` (Java chains). -/
def ind13 (s : Str) : Bool := anySfx ind13at s

/-- Indicator 14: `/APPLICATION FAILED TO START/`. -/
def ind14 (s : Str) : Bool := hasSub "APPLICATION FAILED TO START".data s

/-- Segment between parentheses for indicator 15: full match of
`[^)]+\.java:\d+` (digits adjacent to the closing parenthesis). -/
def javaSeg (seg : Str) : Bool :=
  let r := seg.reverse
  match pDigits1 r with
  | none => false
  | some (_, r1) => pfxOf ":avaj.".data r1 && !((r1.drop 6).isEmpty)

/-- Indicator 15, at one position:
`at\s+\w+\.\w+\.\w+\([^)]+\.java:\d+\)` (Java stack trace). -/
def ind15at (s : Str) : Bool :=
  (do
    let s ← pLit "at".data s
    let s ← pWs1 s
    let (_, s) ← pWord1 s
    let s ← pLit ".".data s
    let (_, s) ← pWord1 s
    let s ← pLit ".".data s
    let (_, s) ← pWord1 s
    match s with
    | '(' :: rest =>
      let seg := rest.takeWhile (fun c => decide (c ≠ ')'))
      if decide (seg.length < rest.length) && javaSeg seg then some () else none
    | _ => none).isSome

/-- Indicator 15 (Java stack trace). -/
def ind15 (s : Str) : Bool := anySfx ind15at s

/-- Indicator 16: `/Exception:\s+\w/`. -/
def ind16 (s : Str) : Bool :=
  anySfx (fun t =>
    match pLit "Exception:".data t with
    | some r =>
      (match pWs1 r with
       | some r2 => headWord r2
       | none => false)
    | none => false) s

/-- Indicator 17: `/\.java:\d+\)/`. -/
def ind17 (s : Str) : Bool :=
  anySfx (fun t =>
    match pLit ".java:".data t with
    | some r =>
      (match pDigits1 r with
       | some (_, r2) => pfxOf ")".data r2
       | none => false)
    | none => false) s

/-- Indicator 18, at one line start: `(INFO|ERROR|WARNING|DEBUG):\s+`. -/
def ind18at (s : Str) : Bool :=
  match (pLit "INFO:".data s <|> pLit "ERROR:".data s <|>
         pLit "WARNING:".data s <|> pLit "DEBUG:".data s) with
  | some r => (pWs1 r).isSome
  | none => false

/-- Indicator 18: `/^(INFO|ERROR|WARNING|DEBUG):\s+/m` (Python logging). -/
def ind18 (s : Str) : Bool := anyLineStart ind18at s

/-- Indicator 19: `/Traceback \(most recent call last\)/`. -/
def ind19 (s : Str) : Bool := hasSub "Traceback (most recent call last)".data s

/-- Indicator 20, after the literal `File "`: looks on the same line for
`", line ` followed by a digit (the `.*` of the regex cannot cross a
newline). -/
def ind20scan : Str → Bool
  | [] => false
  | '\n' :: _ => false
  | c :: t =>
    (match pLit "\", line ".data (c :: t) with
     | some r => headDigit r
     | none => false) || ind20scan t

/-- Indicator 20: `/File ".*", line \d+/` (Python stack frame). -/
def ind20 (s : Str) : Bool :=
  anySfx (fun t =>
    match pLit "File \"".data t with
    | some r => ind20scan r
    | none => false) s

/-- Indicator 21, at one line start: `\s+raise\s+\w+`. -/
def ind21at (s : Str) : Bool :=
  (do
    let s ← pWs1 s
    let s ← pLit "raise".data s
    let s ← pWs1 s
    if headWord s then some () else none).isSome

/-- Indicator 21: `/^\s+raise\s+\w+/m` (Python raise statement). -/
def ind21 (s : Str) : Bool := anyLineStart ind21at s

/-- Indicator 22: `/\w+Error:\s+/` (Python errors). -/
def ind22 (s : Str) : Bool :=
  anySfx (runThen isWordChar "Error:".data (fun r => (pWs1 r).isSome)) s

/-- Indicator 23: `/\w+Exception:\s+/` (Python exceptions). -/
def ind23 (s : Str) : Bool :=
  anySfx (runThen isWordChar "Exception:".data (fun r => (pWs1 r).isSome)) s

/-- Indicator 24: `/^panic:\s+/m` (Go panic). -/
def ind24 (s : Str) : Bool :=
  anyLineStart (fun t =>
    match pLit "panic:".data t with
    | some r => (pWs1 r).isSome
    | none => false) s

/-- Indicator 25, at one line start: `goroutine\s+\d+\s+\[running\]`. -/
def ind25at (s : Str) : Bool :=
  (do
    let s ← pLit "goroutine".data s
    let s ← pWs1 s
    let (_, s) ← pDigits1 s
    let s ← pWs1 s
    let _ ← pLit "[running]".data s
    some ()).isSome

/-- Indicator 25: `/^goroutine\s+\d+\s+\[running\]/m`. -/
def ind25 (s : Str) : Bool := anyLineStart ind25at s

/-- Indicator 26, at one line start: `\s+\/\S+\.go:\d+`. -/
def ind26at (s : Str) : Bool :=
  (do
    let s ← pWs1 s
    let s ← pLit "/".data s
    if runThen (fun c => !isWsChar c) ".go:".data headDigit s then some ()
    else none).isSome

/-- Indicator 26: `/^\s+\/\S+\.go:\d+/m` (Go stack frame). -/
def ind26 (s : Str) : Bool := anyLineStart ind26at s

/-- Indicator 27: `/\[signal SIG[A-Z]+:/` (Go signal). -/
def ind27 (s : Str) : Bool :=
  anySfx (fun t =>
    match pLit "[signal SIG".data t with
    | some r => runThen isUpperChar ":".data (fun _ => true) r
    | none => false) s

/-- Indicator 28, at one position: structured Go log
`\d{4}-\d{2}-\d{2}T\d{2}:\d{2}:\d{2}\.\d+Z\s+(INFO|WARN|ERROR|DEBUG)`. -/
def ind28at (s : Str) : Bool :=
  (do
    let s ← pDigitsN 4 s
    let s ← pLit "-".data s
    let s ← pDigitsN 2 s
    let s ← pLit "-".data s
    let s ← pDigitsN 2 s
    let s ← pLit "T".data s
    let s ← pDigitsN 2 s
    let s ← pLit ":".data s
    let s ← pDigitsN 2 s
    let s ← pLit ":".data s
    let s ← pDigitsN 2 s
    let s ← pLit ".".data s
    let (_, s) ← pDigits1 s
    let s ← pLit "Z".data s
    let s ← pWs1 s
    if pfxOf "INFO".data s || pfxOf "WARN".data s || pfxOf "ERROR".data s ||
        pfxOf "DEBUG".data s then some () else none).isSome

/-- Indicator 28 (structured Go logs, Zap/Zerolog). -/
def ind28 (s : Str) : Bool := anySfx ind28at s

/-- Indicator 29: `/gorm:/i`. -/
def ind29 (s : Str) : Bool := hasSubCI "gorm:".data s

/-- Indicator 30: `/CrashLoopBackOff/` (Kubernetes). -/
def ind30 (s : Str) : Bool := hasSub "CrashLoopBackOff".data s

/-- The fixed, ordered indicator list of `LocalOptimizer.isErrorLog`
(part_005 lines 79-113). -/
def indicators : List (Str → Bool) :=
  [ind01, ind02, ind03, ind04, ind05, ind06, ind07, ind08, ind09, ind10,
   ind11, ind12, ind13, ind14, ind15, ind16, ind17, ind18, ind19, ind20,
   ind21, ind22, ind23, ind24, ind25, ind26, ind27, ind28, ind29, ind30]

/-- `LocalOptimizer.isErrorLog` (part_005 lines 78-117):
`indicators.filter(p => p.test(text)).length >= 2`. -/
def isErrorLog (s : Str) : Bool :=
  decide (2 ≤ (indicators.filter (fun p => p s)).length)

end LocalOptimizer

/-- Does `kw` occur with a word boundary on each side (`\b kw \b`)?
`prev` is the character before the occurrence. -/
def wordBoundedAt (kw : Str) (prev : Option Char) (s : Str) : Bool :=
  (match prev with
   | none => true
   | some c => !isWordChar c) &&
  (match pLit kw s with
   | some r =>
     (match r with
      | [] => true
      | c :: _ => !isWordChar c)
   | none => false)

/-- `\b(kw)\b` somewhere in `s`. -/
def hasKwB (kw : Str) (s : Str) : Bool := anySfxCtx (wordBoundedAt kw) s

namespace LocalOptimizer

/-- `LocalOptimizer.detectIntent` (part_005 lines 119-125): three ordered
word-bounded keyword groups over the lower-cased text, with tags
`debug`, `explain`, `create` and fallback `general`. -/
def detectIntent (s : Str) : Str :=
  let lower := lowerStr s
  if ["error", "exception", "bug", "fix", "crash", "undefined", "null",
      "typeerror"].any (fun k => hasKwB k.data lower) then "debug".data
  else if ["explain", "what is", "how does", "why does"].any
      (fun k => hasKwB k.data lower) then "explain".data
  else if ["create", "build", "implement", "write", "generate", "make",
      "add"].any (fun k => hasKwB k.data lower) then "create".data
  else "general".data

end LocalOptimizer

namespace BackendUsers

/-- Keywords of the backend `fix` bucket (users.ts lines 321-330):
`error`, `bug`, `fix`, `not working`, `doesn't work`, `broken`. -/
def fixKws : List Str :=
  ["error".data, "bug".data, "fix".data, "not working".data,
   "doesn".data ++ [apoChar] ++ "t work".data, "broken".data]

/-- Keywords of the backend `explain` bucket (users.ts lines 333-341). -/
def explainKws : List Str :=
  ["explain".data, "how does".data, "what is".data, "why does".data,
   "understand".data]

/-- Keywords of the backend `implement` bucket (users.ts lines 344-353). -/
def implementKws : List Str :=
  ["create".data, "build".data, "implement".data, "make".data,
   "add".data, "write".data]

/-- Keywords of the backend `optimize` bucket (users.ts lines 356-364). -/
def optimizeKws : List Str :=
  ["review".data, "optimize".data, "improve".data, "refactor".data,
   "better".data]

/-- Keywords of the backend `debug` bucket (users.ts line 367). -/
def debugKws : List Str :=
  ["debug".data, "console.log".data, "trace".data]

/-- Does the lower-cased text contain some keyword of the bucket
(JavaScript `lowerText.includes(kw)`)? -/
def hitsBucket (kws : List Str) (s : Str) : Bool :=
  kws.any (fun k => hasSub k (lowerStr s))

/-- Backend `detectIntent` (users.ts lines 317-372): six ordered
substring-keyword buckets over the lower-cased text. -/
def detectIntent (s : Str) : Str :=
  if hitsBucket fixKws s then "fix".data
  else if hitsBucket explainKws s then "explain".data
  else if hitsBucket implementKws s then "implement".data
  else if hitsBucket optimizeKws s then "optimize".data
  else if hitsBucket debugKws s then "debug".data
  else "general".data

end BackendUsers

/-- Generic split on a separator character (JavaScript `split(sep)`). -/
def splitOnChar (sep : Char) : Str → List Str
  | [] => [[]]
  | c :: t =>
    if c = sep then [] :: splitOnChar sep t
    else
      match splitOnChar sep t with
      | [] => [[c]]
      | l :: ls => (c :: l) :: ls

/-- Leftmost suffix where `f` succeeds (unanchored regex search with
capture). -/
def sfxFindSome {α : Type} (f : Str → Option α) : Str → Option α
  | [] => f []
  | c :: t =>
    match f (c :: t) with
    | some a => some a
    | none => sfxFindSome f t

/-- Suffix of `s` after the LAST occurrence of `pat`, if any (the effect of
the greedy `s.replace(/.*pat/, '')`). -/
def afterLastSubAux (pat : Str) : Str → Option Str
  | [] => none
  | c :: t =>
    match afterLastSubAux pat t with
    | some r => some r
    | none =>
      if pfxOf pat (c :: t) then some ((c :: t).drop pat.length) else none

/-- `s.replace(/.*pat/, '')` for a nonempty literal `pat`. -/
def afterLastSub (pat s : Str) : Str := (afterLastSubAux pat s).getD s

/-- `s.replace(re, '')` for a first-match regex whose match length at a
position is given by `m`. -/
def replaceOnceEmpty (m : Str → Option Nat) : Str → Str
  | [] => []
  | c :: t =>
    match m (c :: t) with
    | some n => (c :: t).drop n
    | none => c :: replaceOnceEmpty m t

/-- The capture of `\s+(.+)` applied to `t` (a single line): at least one
whitespace character, then at least one captured character; the greedy
whitespace run backtracks at most one character. -/
def capWs1Plus (t : Str) : Option Str :=
  match t with
  | c :: _ =>
    if isWsChar c then
      let j := (t.takeWhile isWsChar).length
      if j < t.length then some (t.drop j)
      else if 2 ≤ j then some (t.drop (j - 1))
      else none
    else none
  | [] => none

/-- JavaScript `Set.add`: append if not already present. -/
def addUniq (x : Str) (l : List Str) : List Str :=
  if l.contains x then l else l ++ [x]

namespace LocalOptimizer

/-- Noise pattern `/^##\[error\]/i` (part_005 line 141). -/
def np01 (l : Str) : Bool := pfxOfCI "##[error]".data l

/-- Noise patterns `/^info\s+-\s+(Using|Node version|Platform|Process)/i`
(part_005 lines 142-145), parameterised by the keyword. -/
def npInfoDash (kw : Str) (l : Str) : Bool :=
  (do
    let s ← pLitCI "info".data l
    let s ← pWs1 s
    let s ← pLit "-".data s
    let s ← pWs1 s
    if pfxOfCI kw s then some () else none).isSome

/-- Noise pattern `/^\(node:\d+\)\s+ExperimentalWarning/i` (line 146). -/
def np06 (l : Str) : Bool :=
  (do
    let s ← pLitCI "(node:".data l
    let (_, s) ← pDigits1 s
    let s ← pLit ")".data s
    let s ← pWs1 s
    if pfxOfCI "ExperimentalWarning".data s then some () else none).isSome

/-- Noise pattern matching the node trace-warnings notice (line 147). -/
def np07 (l : Str) : Bool := pfxOfCI "(Use `node --trace-warnings".data l

/-- Noise pattern
`/^-+\s*(Captured|Additional|Repeated|More noise|Nested cause|Another nested)/i`
(line 148). -/
def np08 (l : Str) : Bool :=
  match l with
  | '-' :: _ =>
    let rest := pWs0 (l.dropWhile (fun c => c = '-'))
    pfxOfCI "Captured".data rest || pfxOfCI "Additional".data rest ||
    pfxOfCI "Repeated".data rest || pfxOfCI "More noise".data rest ||
    pfxOfCI "Nested cause".data rest || pfxOfCI "Another nested".data rest
  | _ => false

/-- Noise pattern `/^-+$/` (line 149). -/
def np09 (l : Str) : Bool := !l.isEmpty && l.all (fun c => c = '-')

/-- Noise pattern `/^console\.error$/` (line 150). -/
def np10 (l : Str) : Bool := l = "console.error".data

/-- Noise pattern `/^\s*$/` (line 151). -/
def np11 (l : Str) : Bool := l.all isWsChar

/-- Noise pattern `/^\d{4}-\d{2}-\d{2}\s+\d{2}:\d{2}:\d{2}\.\d+\s+INFO/`
(Spring Boot INFO lines, line 153). -/
def np12 (l : Str) : Bool :=
  (do
    let s ← pDigitsN 4 l
    let s ← pLit "-".data s
    let s ← pDigitsN 2 s
    let s ← pLit "-".data s
    let s ← pDigitsN 2 s
    let s ← pWs1 s
    let s ← pDigitsN 2 s
    let s ← pLit ":".data s
    let s ← pDigitsN 2 s
    let s ← pLit ":".data s
    let s ← pDigitsN 2 s
    let s ← pLit ".".data s
    let (_, s) ← pDigits1 s
    let s ← pWs1 s
    if pfxOf "INFO".data s then some () else none).isSome

/-- Noise pattern for Maven wrapper errors (line 155):
`/^\[ERROR\]\s+Failed to execute goal.*Process terminated with exit code/`. -/
def np13 (l : Str) : Bool :=
  (do
    let s ← pLit "[ERROR]".data l
    let s ← pWs1 s
    let s ← pLit "Failed to execute goal".data s
    if hasSub "Process terminated with exit code".data s then some ()
    else none).isSome

/-- Noise pattern `/^INFO:\s+/` (line 157). -/
def np14 (l : Str) : Bool :=
  (do
    let s ← pLit "INFO:".data l
    let _ ← pWs1 s
    some ()).isSome

/-- Noise pattern `/^\d{4}-\d{2}-\d{2}\s+\d{2}:\d{2}:\d{2},\d+\s+INFO\s+/`
(line 158). -/
def np15 (l : Str) : Bool :=
  (do
    let s ← pDigitsN 4 l
    let s ← pLit "-".data s
    let s ← pDigitsN 2 s
    let s ← pLit "-".data s
    let s ← pDigitsN 2 s
    let s ← pWs1 s
    let s ← pDigitsN 2 s
    let s ← pLit ":".data s
    let s ← pDigitsN 2 s
    let s ← pLit ":".data s
    let s ← pDigitsN 2 s
    let s ← pLit ",".data s
    let (_, s) ← pDigits1 s
    let s ← pWs1 s
    let s ← pLit "INFO".data s
    let _ ← pWs1 s
    some ()).isSome

/-- Noise pattern `/^The above exception was the direct cause/` (line 160). -/
def np16 (l : Str) : Bool := pfxOf "The above exception was the direct cause".data l

/-- Noise pattern `/^During handling of the above exception/` (line 161). -/
def np17 (l : Str) : Bool := pfxOf "During handling of the above exception".data l

/-- Noise pattern `/^\s*\(repeated \d+ times\)\s*$/` (line 162). -/
def np18 (l : Str) : Bool :=
  (do
    let s ← pLit "(repeated ".data (pWs0 l)
    let (_, s) ← pDigits1 s
    let s ← pLit " times)".data s
    if s.all isWsChar then some () else none).isSome

/-- Noise pattern `/^\d{4}-\d{2}-\d{2}T\d{2}:\d{2}:\d{2}\.\d+Z\s+INFO\s+/`
(line 164). -/
def np19 (l : Str) : Bool :=
  (do
    let s ← pDigitsN 4 l
    let s ← pLit "-".data s
    let s ← pDigitsN 2 s
    let s ← pLit "-".data s
    let s ← pDigitsN 2 s
    let s ← pLit "T".data s
    let s ← pDigitsN 2 s
    let s ← pLit ":".data s
    let s ← pDigitsN 2 s
    let s ← pLit ":".data s
    let s ← pDigitsN 2 s
    let s ← pLit ".".data s
    let (_, s) ← pDigits1 s
    let s ← pLit "Z".data s
    let s ← pWs1 s
    let s ← pLit "INFO".data s
    let _ ← pWs1 s
    some ()).isSome

/-- Noise pattern `/Listening on :\d+/` (line 166). -/
def np20 (l : Str) : Bool :=
  anySfx (fun t =>
    match pLit "Listening on :".data t with
    | some r => headDigit r
    | none => false) l

/-- Noise pattern `/Connecting to.*:\d+/` (line 170). -/
def np24 (l : Str) : Bool :=
  anySfx (fun t =>
    match pLit "Connecting to".data t with
    | some r =>
      anySfx (fun u =>
        match u with
        | ':' :: u2 => headDigit u2
        | _ => false) r
    | none => false) l

/-- The noise-pattern table of `optimizeErrorLog` (part_005 lines 140-175),
in source order. -/
def noisePatterns : List (Str → Bool) :=
  [np01,
   npInfoDash "Using".data, npInfoDash "Node version".data,
   npInfoDash "Platform".data, npInfoDash "Process".data,
   np06, np07, np08, np09, np10, np11, np12, np13, np14, np15,
   np16, np17, np18, np19, np20,
   fun l => hasSub "Starting API server".data l,
   fun l => hasSub "Loaded config from".data l,
   fun l => hasSubCI "connection established".data l,
   np24,
   fun l => hasSub "Shutting down server".data l,
   fun l => hasSub "Closing database connections".data l,
   fun l => hasSub "Server shutdown complete".data l]

/-- Internal pattern `/node_modules\/.*queueRunner/` (part_005 line 181). -/
def ipQueueRunner (l : Str) : Bool :=
  anySfx (fun t =>
    match pLit "node_modules/".data t with
    | some r => hasSub "queueRunner".data r
    | none => false) l

/-- Internal pattern `/at mapper\s/` (line 183). -/
def ipMapper (l : Str) : Bool :=
  anySfx (fun t =>
    match pLit "at mapper".data t with
    | some (c :: _) => isWsChar c
    | _ => false) l

/-- Internal pattern `/\.\.\. \d+ common frames omitted/` (line 199). -/
def ipFramesOmitted (l : Str) : Bool :=
  anySfx (fun t =>
    match pLit "... ".data t with
    | some r =>
      (match pDigits1 r with
       | some (_, r2) => pfxOf " common frames omitted".data r2
       | none => false)
    | none => false) l

/-- Internal pattern `/net\/http\..*\.ServeHTTP/` (line 211). -/
def ipServeHTTP (l : Str) : Bool :=
  anySfx (fun t =>
    match pLit "net/http.".data t with
    | some r => hasSub ".ServeHTTP".data r
    | none => false) l

/-- The internal-frame denylist of `optimizeErrorLog` (part_005
lines 178-216), in source order. -/
def internalPatterns : List (Str → Bool) :=
  [fun l => hasSub "node:internal/".data l,
   fun l => hasSub "node_modules/jest".data l,
   ipQueueRunner,
   fun l => hasSub "at new Promise".data l,
   ipMapper,
   fun l => hasSub "at Object.asyncJestTest".data l,
   fun l => hasSub "at Module._compile".data l,
   fun l => hasSub "at Module._extensions".data l,
   fun l => hasSub "at Module.load".data l,
   fun l => hasSub "at Module._load".data l,
   fun l => hasSub "at Function.executeUserEntryPoint".data l,
   fun l => hasSub "at node:internal".data l,
   fun l => hasSub "org.springframework.beans.factory.support.".data l,
   fun l => hasSub "org.springframework.context.support.".data l,
   fun l => hasSub "org.springframework.boot.SpringApplication.".data l,
   fun l => hasSub "org.hibernate.boot.".data l,
   fun l => hasSub "org.hibernate.service.internal.".data l,
   fun l => hasSub "org.hibernate.jpa.boot.".data l,
   fun l => hasSub "java.base/java.util.concurrent.".data l,
   ipFramesOmitted,
   fun l => hasSub "site-packages/sqlalchemy/".data l,
   fun l => hasSub "site-packages/starlette/".data l,
   fun l => hasSub "site-packages/fastapi/".data l,
   fun l => hasSub "site-packages/uvicorn/".data l,
   fun l => hasSub "site-packages/anyio/".data l,
   fun l => hasSub "site-packages/httpx/".data l,
   fun l => hasSub "File \"<string>\"".data l,
   fun l => hasSub "/usr/local/go/src/".data l,
   fun l => hasSub "github.com/gin-gonic/gin".data l,
   ipServeHTTP,
   fun l => hasSub "net/http.(*conn).serve".data l,
   fun l => hasSub "net/http.serverHandler".data l,
   fun l => hasSub "created by net/http".data l,
   fun l => hasSub "database/sql.(*DB)".data l]

/-- Is a line internal, per the denylist (`internalPatterns.some`)? -/
def isInternalLine (l : Str) : Bool := internalPatterns.any (fun p => p l)

/-- Start of a `\s+at\s+` suffix at this position (used by the
`replace(/\s+at\s+.*$/, '')` in the dedup-signature computation)? -/
def atSfxHere (s : Str) : Bool :=
  (do
    let s ← pWs1 s
    let s ← pLit "at".data s
    let _ ← pWs1 s
    some ()).isSome

/-- `firstLine.replace(/\s+at\s+.*$/, '')`: cut from the leftmost
whitespace-`at`-whitespace occurrence to the end. -/
def stripAtSfx : Str → Str
  | [] => []
  | c :: t => if atSfxHere (c :: t) then [] else c :: stripAtSfx t

/-- Length of a `\([^)]+\.java:\d+\)` match at this position (for
`replace(/\([^)]+\.java:\d+\)/, '')`). -/
def parenJavaLen (s : Str) : Option Nat :=
  match s with
  | '(' :: rest =>
    let seg := rest.takeWhile (fun c => decide (c ≠ ')'))
    if decide (seg.length < rest.length) && javaSeg seg then some (seg.length + 2)
    else none
  | _ => none

/-- Length of a `\([^)]+:\d+:\d+\)` match at this position (for
`replace(/\([^)]+:\d+:\d+\)/, '')`). -/
def parenJsLen (s : Str) : Option Nat :=
  match s with
  | '(' :: rest =>
    let seg := rest.takeWhile (fun c => decide (c ≠ ')'))
    if decide (seg.length < rest.length) && jsFrameSeg seg then some (seg.length + 2)
    else none
  | _ => none

/-- The dedup signature computed by `flushError` (part_005 lines 235-239):
the first line stripped of a trailing ` at …`, of a `(….java:N)` and of a
`(…:N:N)` location, then trimmed. -/
def flushSig (firstLine : Str) : Str :=
  jsTrim (replaceOnceEmpty parenJsLen (replaceOnceEmpty parenJavaLen (stripAtSfx firstLine)))

/-- Capture of `/^panic:\s*(.+)/` (Go panic, part_005 line 316). -/
def goPanicCap (line : Str) : Option Str :=
  match pLit "panic:".data line with
  | some r => capAfterWs r
  | none => none

/-- Captures of `/^\[signal (SIG\w+):\s*([^\]]+)\]/` (Go signal,
part_005 line 325). -/
def goSignalCap (line : Str) : Option (Str × Str) :=
  (do
    let s ← pLit "[signal SIG".data line
    let (w, s) ← pWord1 s
    let s ← pLit ":".data s
    let seg := s.takeWhile (fun c => decide (c ≠ ']'))
    if decide (seg.length < s.length) && !seg.isEmpty then
      let j := (seg.takeWhile isWsChar).length
      some ("SIG".data ++ w, seg.drop (min j (seg.length - 1)))
    else none)

/-- Test of `/^goroutine\s+\d+\s+\[running\]:/` (part_005 line 333). -/
def goroutineTest (line : Str) : Bool :=
  (do
    let s ← pLit "goroutine".data line
    let s ← pWs1 s
    let (_, s) ← pDigits1 s
    let s ← pWs1 s
    let _ ← pLit "[running]:".data s
    some ()).isSome

/-- Parse the Go-frame identifier `\w+(?:\.\(\*?\w+\))?\.[\w.]+` at the
start of `s`, returning the rest. -/
def goIdentParse (s : Str) : Option Str :=
  match pWord1 s with
  | none => none
  | some (_, r) =>
    (match pLit ".(".data r with
     | some r2 =>
       let r3 :=
         match r2 with
         | '*' :: t => t
         | _ => r2
       (match pWord1 r3 with
        | none => none
        | some (_, r4) =>
          match pLit ").".data r4 with
          | none => none
          | some r5 =>
            let cls := r5.takeWhile (fun c => isWordChar c || decide (c = '.'))
            if cls.isEmpty then none else some (r5.drop cls.length))
     | none => none)
    <|>
    (match pLit ".".data r with
     | none => none
     | some r2 =>
       let cls := r2.takeWhile (fun c => isWordChar c || decide (c = '.'))
       if cls.isEmpty then none else some (r2.drop cls.length))

/-- Candidate lengths for the optional leading group `(\S+\/)?` of the
Go-frame regex: prefixes of the leading non-whitespace run ending in `/`,
longest first (greedy), then the empty choice. -/
def g1Candidates (s : Str) : List Nat :=
  let run := s.takeWhile (fun c => !isWsChar c)
  ((List.range (run.length + 1)).filter
    (fun p => decide (2 ≤ p) && decide ((run.take p).getLast? = some '/'))).reverse
    ++ [0]

/-- Capture (the function name, group 2) of the Go stack-frame regex
`/^(\S+\/)?(\w+(?:\.\(\*?\w+\))?\.[\w.]+)\(([^)]*)\)$/`
(part_005 line 341). -/
def goFrameCap (line : Str) : Option Str :=
  (g1Candidates line).findSome? (fun p =>
    let restAll := line.drop p
    match goIdentParse restAll with
    | none => none
    | some rest =>
      match rest with
      | '(' :: rt =>
        if rt.getLast? = some ')' && rt.dropLast.all (fun c => decide (c ≠ ')')) then
          some (restAll.take (restAll.length - rest.length))
        else none
      | _ => none)

/-- Captures (filepath, line number) of `/^\s+(\S+\.go):(\d+)/`
(Go file reference, part_005 line 354). -/
def goFileCap (line : Str) : Option (Str × Str) :=
  match line with
  | c :: _ =>
    if isWsChar c then
      let s1 := line.dropWhile isWsChar
      let run := s1.takeWhile (fun c => !isWsChar c)
      ((List.range (run.length + 1)).reverse).findSome? (fun m =>
        if decide (4 ≤ m) && pfxOf "og.".data ((run.take m).reverse) then
          match s1.drop m with
          | ':' :: r =>
            (match pDigits1 r with
             | some (d, _) => some (run.take m, d)
             | none => none)
          | _ => none
        else none)
    else none
  | [] => none

/-- `\d{4}-\d{2}-\d{2}` (date prefix of the log stamps). -/
def pDateDashes (s : Str) : Option Str :=
  (do
    let s ← pDigitsN 4 s
    let s ← pLit "-".data s
    let s ← pDigitsN 2 s
    let s ← pLit "-".data s
    pDigitsN 2 s)

/-- `\d{2}:\d{2}:\d{2}` (clock part of the log stamps). -/
def pClockColons (s : Str) : Option Str :=
  (do
    let s ← pDigitsN 2 s
    let s ← pLit ":".data s
    let s ← pDigitsN 2 s
    let s ← pLit ":".data s
    pDigitsN 2 s)

/-- `\d{4}-\d{2}-\d{2}T\d{2}:\d{2}:\d{2}\.\d+Z` (ISO stamp of the
structured Go logs). -/
def pIsoStampZ (s : Str) : Option Str :=
  (do
    let s ← pDateDashes s
    let s ← pLit "T".data s
    let s ← pClockColons s
    let s ← pLit ".".data s
    let (_, s) ← pDigits1 s
    pLit "Z".data s)

/-- `(ERROR|WARN)` with its capture (alternation order of the source). -/
def pLevelEW (s : Str) : Option (Str × Str) :=
  match pLit "ERROR".data s with
  | some r => some ("ERROR".data, r)
  | none =>
    match pLit "WARN".data s with
    | some r => some ("WARN".data, r)
    | none => none

/-- Backtracking split of `(\S+):(\d+)` at the end of the non-whitespace
run `run`: the greedy `\S+` gives the last colon followed by digits
reaching the end of the run. -/
def splitLastColonDigits (run : Str) : Option (Str × Str) :=
  ((List.range run.length).reverse).findSome? (fun m =>
    if decide (1 ≤ m) && decide (run.get? m = some ':') then
      let ds := run.drop (m + 1)
      if !ds.isEmpty && ds.all isDigitChar then some (run.take m, ds)
      else none
    else none)

/-- Level / file / line / message captures of the structured Go log regex
`/^\d{4}-\d{2}-\d{2}T\d{2}:\d{2}:\d{2}\.\d+Z\s+(ERROR|WARN)\s+(\S+):(\d+)\s+(.+)/`
(part_005 line 368). -/
def goLogCap (line : Str) : Option (Str × Str × Str × Str) :=
  (do
    let s ← pIsoStampZ line
    let s ← pWs1 s
    let (level, s) ← pLevelEW s
    let s ← pWs1 s
    let run := s.takeWhile (fun c => !isWsChar c)
    let (file, num) ← splitLastColonDigits run
    let msg ← capWs1Plus (s.drop run.length)
    some (level, file, num, msg))

/-- Query capture of the GORM regex `/^gorm:\s*\[[\d-T:Z.]+\]\s*(.+)/`
(part_005 line 388). -/
def gormCap (line : Str) : Option Str :=
  (do
    let s ← pLit "gorm:".data line
    let s := pWs0 s
    let s ← pLit "[".data s
    let cls := s.takeWhile (fun c =>
      isDigitChar c || decide (c = '-') || decide (c = 'T') || decide (c = ':') ||
      decide (c = 'Z') || decide (c = '.'))
    if cls.isEmpty then none
    else
      match s.drop cls.length with
      | ']' :: r => capAfterWs r
      | _ => none)

/-- Capture of `/Reason=(CrashLoopBackOff|OOMKilled|Error)/`
(Kubernetes, part_005 line 401). -/
def k8sCap (line : Str) : Option Str :=
  sfxFindSome (fun t =>
    match pLit "Reason=".data t with
    | some r =>
      if pfxOf "CrashLoopBackOff".data r then some "CrashLoopBackOff".data
      else if pfxOf "OOMKilled".data r then some "OOMKilled".data
      else if pfxOf "Error".data r then some "Error".data
      else none
    | none => none) line

/-- Capture of `/error="([^"]+)"/` (Go error field, part_005 line 413). -/
def goErrorFieldCap (line : Str) : Option Str :=
  sfxFindSome (fun t =>
    match pLit "error=\"".data t with
    | some r =>
      let seg := r.takeWhile (fun c => decide (c ≠ '"'))
      if decide (seg.length < r.length) && !seg.isEmpty then some seg else none
    | none => none) line

/-- Lazy scan for the `(.+?)(?:\s+error=)` tail of the context regex:
returns the shortest nonempty prefix followed by whitespace and `error=`. -/
def lazyToErrorEq : Str → Str → Option Str
  | acc, c :: t =>
    let acc2 := c :: acc
    (match pWs1 t with
     | some r =>
       if pfxOf "error=".data r then some acc2.reverse else lazyToErrorEq acc2 t
     | none => lazyToErrorEq acc2 t)
  | _, [] => none

/-- Second capture of the Go error-context regex
`/^\d{4}-\d{2}-\d{2}T[\d:.]+Z\s+\w+\s+(\S+)\s+(.+?)(?:\s+error=)/`
(part_005 line 420). -/
def goCtxCap (line : Str) : Option Str :=
  (do
    let s ← pDateDashes line
    let s ← pLit "T".data s
    let cls := s.takeWhile (fun c =>
      isDigitChar c || decide (c = ':') || decide (c = '.'))
    if cls.isEmpty then none
    else do
      let s ← pLit "Z".data (s.drop cls.length)
      let s ← pWs1 s
      let (_, s) ← pWord1 s
      let s ← pWs1 s
      let (_, s) ← pNonWs1 s
      let s ← pWs1 s
      lazyToErrorEq [] s)

/-- Test of `/Retrying.*\(attempt \d+\/\d+\)/` (part_005 line 431). -/
def retryTest (line : Str) : Bool :=
  anySfx (fun t =>
    match pLit "Retrying".data t with
    | some r =>
      anySfx (fun u =>
        (do
          let u ← pLit "(attempt ".data u
          let (_, u) ← pDigits1 u
          let u ← pLit "/".data u
          let (_, u) ← pDigits1 u
          let _ ← pLit ")".data u
          some ()).isSome) r
    | none => false) line

/-- Capture (group 1, original case) of
`/(Liveness|Readiness|Health)\s+probe\s+failed/i` (part_005 line 436). -/
def probeCap (line : Str) : Option Str :=
  sfxFindSome (fun t =>
    (["Liveness", "Readiness", "Health"].findSome? (fun kw =>
      (do
        let s ← pLitCI kw.data t
        let s ← pWs1 s
        let s ← pLitCI "probe".data s
        let s ← pWs1 s
        let _ ← pLitCI "failed".data s
        some (t.take kw.length))))) line

/-- Capture of `/^ERROR:\s+(.+)/` (Python error line, part_005 line 456). -/
def pyErrorCap (line : Str) : Option Str :=
  match pLit "ERROR:".data line with
  | some r => capWs1Plus r
  | none => none

/-- Effect of `filepath.replace(/.*\/usr\/local\/lib\/.*\//, '')`: if the
string contains `/usr/local/lib/` with a further `/` at or after its end,
the result is the suffix after the last `/`; otherwise unchanged. -/
def replaceUsrLocalLib (s : Str) : Str :=
  match afterLastSubAux "/usr/local/lib/".data s with
  | some tailPart =>
    -- a `/` at or after the end of the occurrence is exactly a `/` in
    -- `tailPart` or the final `/` of the occurrence region... the regex
    -- needs one more `/` after the literal, i.e. a `/` in `tailPart`
    (match afterLastSubAux ['/'] tailPart with
     | some r => r
     | none => s)
  | none => s

/-- Captures (filepath, line number, function) of the Python frame regex
`/^\s*File "([^"]+)", line (\d+), in (.+)/` (part_005 line 474). -/
def pyFrameCap (line : Str) : Option (Str × Str × Str) :=
  (do
    let s ← pLit "File \"".data (pWs0 line)
    let fp := s.takeWhile (fun c => decide (c ≠ '"'))
    if decide (fp.length < s.length) && !fp.isEmpty then do
      let s2 ← pLit "\", line ".data (s.drop fp.length)
      let (num, s3) ← pDigits1 s2
      let s4 ← pLit ", in ".data s3
      if s4.isEmpty then none else some (fp, num, s4)
    else none)

/-- Test of the Python code-context condition `/^\s{4,}\S/`
(part_005 line 496). -/
def pyContextTest (line : Str) : Bool :=
  let j := (line.takeWhile isWsChar).length
  decide (4 ≤ j) && decide (j < line.length)

/-- Does the run match `(?:[\w.]+\.)?(?:\w+Exception|\w+Error)` in full?
`run` is a maximal run of word-or-dot characters. -/
def exShapeSfx (run sfx : Str) : Bool :=
  pfxOf sfx.reverse run.reverse &&
  (let base := run.take (run.length - sfx.length)
   let tw := (base.reverse.takeWhile isWordChar).length
   decide (1 ≤ tw) && (decide (base.length = tw) || decide (tw + 2 ≤ base.length)))

/-- Full-match test for group 2 of the exception regex. -/
def exShape (run : Str) : Bool :=
  exShapeSfx run "Exception".data || exShapeSfx run "Error".data

/-- Captures (indent, full exception type, message) of the exception regex
`/^(\s*)((?:[\w.]+\.)?(?:\w+Exception|\w+Error)):\s*(.+)/`
(part_005 line 506). -/
def exceptionCap (line : Str) : Option (Str × Str × Str) :=
  let indent := line.takeWhile isWsChar
  let rest := line.drop indent.length
  let run := rest.takeWhile (fun c => isWordChar c || decide (c = '.'))
  if run.isEmpty then none
  else
    match rest.drop run.length with
    | ':' :: afterColon =>
      if exShape run then
        (capAfterWs afterColon).map (fun msg => (indent, run, msg))
      else none
    | _ => none

/-- `fullExType.split('.').pop() || fullExType` (part_005 line 510). -/
def exShortType (fullExType : Str) : Str :=
  match (splitOnChar '.' fullExType).getLast? with
  | some l => if l.isEmpty then fullExType else l
  | none => fullExType

/-- The `\d{4}-\d{2}-\d{2}\s+\d{2}:\d{2}:\d{2}\.\d+` stamp prefix of the
Spring Boot log regex (part_005 line 535). -/
def pSpringStamp (s : Str) : Option Str :=
  (do
    let s ← pDateDashes s
    let s ← pWs1 s
    let s ← pClockColons s
    let s ← pLit ".".data s
    let (_, s) ← pDigits1 s
    some s)

/-- `\[[^\]]+\]`: nonempty bracketed segment. -/
def pBracketSeg (s : Str) : Option Str :=
  match s with
  | '[' :: r =>
    let seg := r.takeWhile (fun c => decide (c ≠ ']'))
    if decide (seg.length < r.length) && !seg.isEmpty then
      some (r.drop (seg.length + 1))
    else none
  | _ => none

/-- Backtracking split of `(\S+)\s*:\s*`: the greedy `\S+` first takes the
whole run (colon after optional whitespace), else backtracks to the last
colon inside the run.  Returns the logger capture and the rest after the
colon. -/
def springLoggerSplit (s : Str) : Option (Str × Str) :=
  let run := s.takeWhile (fun c => !isWsChar c)
  if run.isEmpty then none
  else
    match pWs0 (s.drop run.length) with
    | ':' :: r => some (run, r)
    | _ =>
      ((List.range run.length).reverse).findSome? (fun m =>
        if decide (1 ≤ m) && decide (run.get? m = some ':') then
          some (run.take m, s.drop (m + 1))
        else none)

/-- Level / logger / message captures of the Spring Boot log regex
`/^\d{4}-\d{2}-\d{2}\s+\d{2}:\d{2}:\d{2}\.\d+\s+(ERROR|WARN)\s+\d+\s+---\s+\[[^\]]+\]\s+(\S+)\s*:\s*(.+)/`
(part_005 line 535). -/
def springLogCap (line : Str) : Option (Str × Str × Str) :=
  (do
    let s ← pSpringStamp line
    let s ← pWs1 s
    let (level, s) ← pLevelEW s
    let s ← pWs1 s
    let (_, s) ← pDigits1 s
    let s ← pWs1 s
    let s ← pLit "---".data s
    let s ← pWs1 s
    let s ← pBracketSeg s
    let s ← pWs1 s
    let (logger, r) ← springLoggerSplit s
    let msg ← capAfterWs r
    some (level, logger, msg))

/-- Test of the JS error regex
`/^((?:Type|Reference|Syntax|Range|Module|Resolve)?Error)[\s:]/i`
(part_005 line 548). -/
def jsErrorTest (line : Str) : Bool :=
  ["TypeError", "ReferenceError", "SyntaxError", "RangeError",
   "ModuleError", "ResolveError", "Error"].any (fun h =>
    match pLitCI h.data line with
    | some (c :: _) => isWsChar c || decide (c = ':')
    | _ => false)

/-- Test of the build-error regex `/^(FAIL|ERROR\s+in)[\s:]/i`
(part_005 line 569). -/
def buildErrorTest (line : Str) : Bool :=
  (match pLitCI "FAIL".data line with
   | some (c :: _) => isWsChar c || decide (c = ':')
   | _ => false) ||
  ((do
    let s ← pLitCI "ERROR".data line
    let s ← pWs1 s
    let s ← pLitCI "in".data s
    match s with
    | c :: _ => if isWsChar c || decide (c = ':') then some () else none
    | [] => none).isSome)

/-- Test of the stack-frame regex `/^\s*at\s+/` (part_005 line 578). -/
def atFrameTest (line : Str) : Bool :=
  match pLit "at".data (pWs0 line) with
  | some r => (pWs1 r).isSome
  | none => false

/-- Captures (exception type, message) of
`/^Caused by:\s*(\S+):\s*(.+)/` (part_005 line 597). -/
def causedByCap (line : Str) : Option (Str × Str) :=
  (do
    let s ← pLit "Caused by:".data line
    let s2 := pWs0 s
    let run := s2.takeWhile (fun c => !isWsChar c)
    ((List.range run.length).reverse).findSome? (fun m =>
      if decide (1 ≤ m) && decide (run.get? m = some ':') then
        (capAfterWs (s2.drop (m + 1))).map (fun msg => (run.take m, msg))
      else none))

/-- Test of the bullet regex `/^\s*●\s+/` (part_005 line 624). -/
def bulletTest (line : Str) : Bool :=
  match pWs0 line with
  | c :: r => decide (c = '●') && (pWs1 r).isSome
  | [] => false

/-- Test of `/webpack compiled with \d+ error/` (case-sensitive,
part_005 line 631). -/
def webpackSummaryTest (line : Str) : Bool :=
  anySfx (fun t =>
    match pLit "webpack compiled with ".data t with
    | some r =>
      (match pDigits1 r with
       | some (_, r2) => pfxOf " error".data r2
       | none => false)
    | none => false) line

/-- Test of the webpack resolution-noise alternation (part_005 line 638). -/
def resolutionNoiseTest (line : Str) : Bool :=
  hasSub ("Field ".data ++ [apoChar] ++ "browser".data ++ [apoChar]) line ||
  hasSub "Parsed request".data line ||
  hasSub "using description file".data line ||
  hasSub "resolve as module".data line ||
  hasSub "single file module".data line ||
  hasSub ("doesn".data ++ [apoChar] ++ "t exist".data) line ||
  hasSub "looking for modules".data line ||
  hasSub "no extension".data line ||
  hasSub (".ts doesn".data ++ [apoChar] ++ "t exist".data) line ||
  hasSub (".tsx doesn".data ++ [apoChar] ++ "t exist".data) line ||
  hasSub (".js doesn".data ++ [apoChar] ++ "t exist".data) line ||
  hasSub (".json doesn".data ++ [apoChar] ++ "t exist".data) line ||
  hasSub "is not a directory".data line

/-- Test of `/^resolve ['"]/` applied to the trimmed line
(part_005 line 643). -/
def resolveLineTest (line : Str) : Bool :=
  match pLit "resolve ".data (jsTrim line) with
  | some (c :: _) => decide (c = apoChar) || decide (c = '"')
  | _ => false

/-- Capture of `/SdkClientException:\s*(.+)/` (AWS SDK,
part_005 line 648). -/
def awsSdkCap (line : Str) : Option Str :=
  sfxFindSome (fun t =>
    match pLit "SdkClientException:".data t with
    | some r => capAfterWs r
    | none => none) line

end LocalOptimizer

/-- The mutable scan state of `optimizeErrorLog` (part_005 lines 133-226):
finished sections, the two signature sets, the error being accumulated,
stack/code-context flags and counters, and the APPLICATION-FAILED block. -/
structure ELState where
  sections : List Str
  seenErrors : List Str
  seenStack : List Str
  currentError : List Str
  inStack : Bool
  frameCount : Nat
  codeCtx : List Str
  inCodeCtx : Bool
  appBlock : List Str
  inAppBlock : Bool
deriving Repr, DecidableEq

namespace LocalOptimizer

/-- `flushError` (part_005 lines 228-254): join and trim the accumulated
error lines, compute the dedup signature from the first line, discard the
whole block when the signature was already seen, otherwise register it
and emit the block as a section. -/
def flushError (st : ELState) : ELState :=
  if st.currentError.isEmpty then st
  else
    let errorText := jsTrim (joinNl st.currentError)
    let firstLine := (splitNl errorText).headD []
    let errorSig := flushSig firstLine
    if st.seenErrors.contains errorSig then
      { st with currentError := [], frameCount := 0, inStack := false }
    else
      { st with seenErrors := st.seenErrors ++ [errorSig],
                sections := st.sections ++ [errorText],
                currentError := [], frameCount := 0, inStack := false }

/-- `flushCodeContext` (part_005 lines 256-262). -/
def flushCodeCtx (st : ELState) : ELState :=
  let st1 :=
    if !st.codeCtx.isEmpty then
      { st with sections := st.sections ++ [joinNl st.codeCtx], codeCtx := [] }
    else st
  { st1 with inCodeCtx := false }

/-- Opener of the APPLICATION-FAILED block (part_005 line 268):
`/\*+\s*$/.test(line) && lines[i+1]?.includes('APPLICATION FAILED TO START')`. -/
def appOpenerTest (line : Str) (nextLine : Option Str) : Bool :=
  pfxOf ['*'] (line.reverse.dropWhile isWsChar) &&
  (match nextLine with
   | some nl => hasSub "APPLICATION FAILED TO START".data nl
   | none => false)

/-- `/^\*+\s*$/` (part_005 line 275). -/
def allStarsWsTest (line : Str) : Bool :=
  match line with
  | '*' :: _ => (line.dropWhile (fun c => c = '*')).all isWsChar
  | _ => false

/-- `/^-+\s+/` (part_005 line 280). -/
def dashSpaceTest (line : Str) : Bool :=
  match line with
  | '-' :: _ =>
    (match line.dropWhile (fun c => c = '-') with
     | c :: _ => isWsChar c
     | [] => false)
  | _ => false

/-- `/^\d{4}-\d{2}-\d{2}/` (part_005 line 280). -/
def dateStartTest (line : Str) : Bool := (pDateDashes line).isSome

/-- Test of the code-context regex `/^\s*(\d+)\s*\|\s*(.+)/`
(part_005 line 297). -/
def codeNumTest (line : Str) : Bool :=
  match pDigits1 (pWs0 line) with
  | some (_, s) =>
    (match pWs0 s with
     | '|' :: r => !r.isEmpty
     | _ => false)
  | none => false

/-- Test of the error-pointer regex `/^\s*\|?\s*\^/` (part_005 line 306). -/
def pointerTest (line : Str) : Bool :=
  let t := pWs0 line
  pfxOf ['^'] t ||
  (match t with
   | '|' :: r => pfxOf ['^'] (pWs0 r)
   | _ => false)

/-- Test of `/^\[Recovery\] panic recovered/` (part_005 line 382). -/
def ginRecoveryTest (line : Str) : Bool :=
  pfxOf "[Recovery] panic recovered".data line

/-- Test of `/^Traceback \(most recent call last\):/` (part_005 line 447). -/
def pyTracebackTest (line : Str) : Bool :=
  pfxOf "Traceback (most recent call last):".data line

/-- Go panic branch (part_005 lines 316-322). -/
def bGoPanic (line : Str) (st : ELState) : Option ELState :=
  (goPanicCap line).map (fun msg =>
    let st1 := flushError st
    { st1 with currentError := st1.currentError ++ ["panic: ".data ++ msg],
               inStack := false })

/-- Go signal branch (part_005 lines 325-330). -/
def bGoSignal (line : Str) (st : ELState) : Option ELState :=
  (goSignalCap line).map (fun p =>
    { st with currentError := st.currentError ++
        [['['] ++ p.1 ++ ": ".data ++ p.2 ++ [']']] })

/-- Go goroutine-header branch (part_005 lines 333-338). -/
def bGoroutine (line : Str) (st : ELState) : Option ELState :=
  if goroutineTest line then some { st with inStack := true, frameCount := 0 }
  else none

/-- Go stack-frame branch (part_005 lines 341-351): consumes the line only
when it matches AND a stack trace is open; keeps the function name for
non-internal frames while the cap is not reached (no counter increment
here). -/
def bGoFrame (line : Str) (st : ELState) : Option ELState :=
  match goFrameCap line with
  | some fn =>
    if st.inStack then
      if !isInternalLine line && decide (st.frameCount < 3) then
        some { st with currentError := st.currentError ++
            ["  ".data ++ fn ++ "()".data] }
      else some st
    else none
  | none => none

/-- Go file-reference branch (part_005 lines 354-365): shortens the path,
emits it and increments the frame counter. -/
def bGoFile (line : Str) (st : ELState) : Option ELState :=
  match goFileCap line with
  | some (fp, num) =>
    if st.inStack then
      if !isInternalLine fp && decide (st.frameCount < 3) then
        let short := afterLastSub "/app/".data (afterLastSub "/go/pkg/mod/".data fp)
        let entry := "    ".data ++ short ++ [':'] ++ num
        some { st with currentError := st.currentError ++ [entry],
                       frameCount := st.frameCount + 1 }
      else some st
    else none
  | none => none

/-- Structured Go ERROR/WARN log branch (part_005 lines 368-379): the
signature is registered BEFORE `flushError` runs. -/
def bGoLog (line : Str) (st : ELState) : Option ELState :=
  (goLogCap line).map (fun q =>
    let sig := q.1 ++ ": ".data ++ jsSlice 50 q.2.2.2
    if st.seenErrors.contains sig then { st with inStack := false }
    else
      let stA := { st with seenErrors := addUniq sig st.seenErrors }
      let stB := flushError stA
      let entry := q.1 ++ [' '] ++ q.2.1 ++ [':'] ++ q.2.2.1 ++ [' '] ++ q.2.2.2
      { stB with currentError := stB.currentError ++ [entry],
                 inStack := false })

/-- Gin recovery branch (part_005 lines 382-385): skip. -/
def bGinRecovery (line : Str) (st : ELState) : Option ELState :=
  if ginRecoveryTest line then some st else none

/-- GORM SQL-query branch (part_005 lines 388-398). -/
def bGorm (line : Str) (st : ELState) : Option ELState :=
  (gormCap line).map (fun q =>
    if hasSub "SELECT".data q || hasSub "INSERT".data q ||
        hasSub "UPDATE".data q || hasSub "DELETE".data q then
      let gsig := "gorm:".data ++ jsSlice 30 q
      if st.seenErrors.contains gsig then st
      else { st with seenErrors := addUniq gsig st.seenErrors,
                     sections := st.sections ++ ["SQL: ".data ++ q] }
    else st)

/-- Kubernetes crash-reason branch (part_005 lines 401-410). -/
def bK8s (line : Str) (st : ELState) : Option ELState :=
  (k8sCap line).map (fun cap =>
    let sig := "k8s: ".data ++ cap
    if st.seenErrors.contains sig then st
    else
      let stA := { st with seenErrors := addUniq sig st.seenErrors }
      let stB := flushError stA
      { stB with currentError := stB.currentError ++ ["K8s: ".data ++ cap] })

/-- Go `error="…"` field branch (part_005 lines 413-428). -/
def bGoErrorField (line : Str) (st : ELState) : Option ELState :=
  (goErrorFieldCap line).map (fun msg =>
    let sig := "error: ".data ++ jsSlice 40 msg
    if st.seenErrors.contains sig then st
    else
      let stA := { st with seenErrors := addUniq sig st.seenErrors }
      match goCtxCap line with
      | some ctx =>
        { stA with currentError := stA.currentError ++ [ctx ++ ": ".data ++ msg] }
      | none =>
        { stA with currentError := stA.currentError ++ ["Error: ".data ++ msg] })

/-- Go retry-noise branch (part_005 lines 431-433): skip. -/
def bRetry (line : Str) (st : ELState) : Option ELState :=
  if retryTest line then some st else none

/-- Probe-failure branch (part_005 lines 436-444). -/
def bProbe (line : Str) (st : ELState) : Option ELState :=
  (probeCap line).map (fun cap =>
    if st.seenErrors.contains "probe:failed".data then st
    else { st with seenErrors := addUniq "probe:failed".data st.seenErrors,
                   currentError := st.currentError ++
                     [cap ++ " probe failed".data] })

/-- Python traceback-header branch (part_005 lines 447-453). -/
def bPyTraceback (line : Str) (st : ELState) : Option ELState :=
  if pyTracebackTest line then
    let st1 := flushError st
    some { st1 with inStack := true, frameCount := 0 }
  else none

/-- Python `ERROR:` line branch (part_005 lines 456-471). -/
def bPyError (line : Str) (st : ELState) : Option ELState :=
  (pyErrorCap line).map (fun msg =>
    if hasSub "Exception in ASGI application".data msg then st
    else
      let sig := "ERROR: ".data ++ jsSlice 50 msg
      let st1 :=
        if st.seenErrors.contains sig then st
        else
          let stA := { st with seenErrors := addUniq sig st.seenErrors }
          let stB := flushError stA
          { stB with currentError := stB.currentError ++ ["ERROR: ".data ++ msg] }
      { st1 with inStack := false })

/-- Python stack-frame branch (part_005 lines 474-493). -/
def bPyFrame (line : Str) (st : ELState) : Option ELState :=
  (pyFrameCap line).map (fun q =>
    let st1 := { st with inStack := true }
    if isInternalLine q.1 then st1
    else if decide (st1.frameCount < 3) then
      let short := replaceUsrLocalLib (afterLastSub "site-packages/".data q.1)
      let entry := "  File \"".data ++ short ++ "\", line ".data ++ q.2.1 ++
        ", in ".data ++ q.2.2
      { st1 with seenStack := addUniq (short ++ [':'] ++ q.2.1) st1.seenStack,
                 currentError := st1.currentError ++ [entry],
                 frameCount := st1.frameCount + 1 }
    else st1)

/-- Python code-context branch (part_005 lines 496-502). -/
def bPyContext (line : Str) (st : ELState) : Option ELState :=
  if st.inStack && pyContextTest line && !hasSub "File \"".data line then
    (if decide (st.frameCount ≤ 3) && !st.currentError.isEmpty then
      some { st with currentError := st.currentError ++ ["    ".data ++ jsTrim line] }
    else some st)
  else none

/-- Java / Python exception-declaration branch (part_005 lines 506-532):
the signature of a NEW exception is registered before any flush; a seen
signature discards the whole pending block and forces the frame cap. -/
def bException (line : Str) (st : ELState) : Option ELState :=
  (exceptionCap line).map (fun q =>
    let exT := exShortType q.2.1
    let msg := q.2.2
    let sig := exT ++ ": ".data ++ jsSlice 60 msg
    if !st.seenErrors.contains sig then
      let stA := { st with seenErrors := addUniq sig st.seenErrors }
      let stB :=
        if decide (2 < q.1.length) then
          { stA with currentError := stA.currentError ++ [exT ++ ": ".data ++ msg] }
        else
          let stF := flushError stA
          { stF with currentError := stF.currentError ++ [exT ++ ": ".data ++ msg] }
      { stB with inStack := false, frameCount := 0 }
    else
      let stF := flushError st
      { stF with inStack := true, frameCount := 999 })

/-- Spring Boot ERROR/WARN log-line branch (part_005 lines 535-545). -/
def bSpringLog (line : Str) (st : ELState) : Option ELState :=
  (springLogCap line).map (fun q =>
    if q.1 = "ERROR".data || hasSub "Could not".data q.2.2 then
      let stF := flushError st
      let entry := q.1 ++ ": ".data ++ q.2.2
      { stF with currentError := stF.currentError ++ [entry],
                 inStack := false }
    else st)

/-- JS error-line branch (part_005 lines 548-566). -/
def bJsError (line : Str) (st : ELState) : Option ELState :=
  if jsErrorTest line then
    let sig := stripAtSfx (jsTrim line)
    if st.seenErrors.contains sig then
      some { st with currentError := [], inStack := true, frameCount := 999 }
    else
      let stA := { st with seenErrors := addUniq sig st.seenErrors }
      let stB :=
        if stA.currentError.length = 1 && pfxOf ['●'] (stA.currentError.headD []) then
          { stA with currentError := stA.currentError ++ [jsTrim line] }
        else
          let stF := flushError stA
          { stF with currentError := stF.currentError ++ [jsTrim line] }
      some { stB with inStack := false }
  else none

/-- FAIL / `ERROR in` build-error branch (part_005 lines 569-575). -/
def bBuildError (line : Str) (st : ELState) : Option ELState :=
  if buildErrorTest line then
    let stF := flushError st
    some { stF with currentError := stF.currentError ++ [jsTrim line],
                    inStack := false }
  else none

/-- `at …` stack-frame branch (part_005 lines 578-594). -/
def bAtFrame (line : Str) (st : ELState) : Option ELState :=
  if atFrameTest line then
    let st1 := { st with inStack := true }
    (if isInternalLine line then some st1
     else if decide (st1.frameCount < 3) then
       let sig := jsTrim line
       if st1.seenStack.contains sig then some st1
       else
         let entry := "  ".data ++ jsTrim line
         some { st1 with seenStack := addUniq sig st1.seenStack,
                         currentError := st1.currentError ++ [entry],
                         frameCount := st1.frameCount + 1 }
     else some st1)
  else none

/-- `Caused by:` branch (part_005 lines 597-614). -/
def bCausedBy (line : Str) (st : ELState) : Option ELState :=
  (causedByCap line).map (fun q =>
    let sig := "Caused by: ".data ++ q.1
    if !st.seenErrors.contains sig then
      let stA := { st with seenErrors := addUniq sig st.seenErrors }
      let stF := flushError stA
      let entry := "Caused by: ".data ++ q.1 ++ ": ".data ++ q.2
      { stF with currentError := stF.currentError ++ [entry],
                 inStack := false, frameCount := 0 }
    else
      let stF := flushError st
      { stF with inStack := true, frameCount := 999 })

/-- Module-resolution-error branch (part_005 lines 617-621). -/
def bModuleNotFound (line : Str) (st : ELState) : Option ELState :=
  if hasSub "Module not found".data line ||
      hasSub ("Can".data ++ [apoChar] ++ "t resolve".data) line then
    let stF := flushError st
    some { stF with currentError := stF.currentError ++ [jsTrim line] }
  else none

/-- Test-suite bullet branch (part_005 lines 624-628). -/
def bBullet (line : Str) (st : ELState) : Option ELState :=
  if bulletTest line then
    let stF := flushError st
    some { stF with currentError := stF.currentError ++ [jsTrim line] }
  else none

/-- Webpack compilation-summary branch (part_005 lines 631-635). -/
def bWebpackSummary (line : Str) (st : ELState) : Option ELState :=
  if webpackSummaryTest line then
    let stF := flushError st
    some { stF with sections := stF.sections ++ [jsTrim line] }
  else none

/-- Webpack resolution-noise branch (part_005 lines 638-640): skip. -/
def bResolutionNoise (line : Str) (st : ELState) : Option ELState :=
  if resolutionNoiseTest line then some st else none

/-- `resolve '…'` noise branch (part_005 lines 643-645): skip. -/
def bResolveLine (line : Str) (st : ELState) : Option ELState :=
  if resolveLineTest line then some st else none

/-- AWS SDK exception branch (part_005 lines 648-657). -/
def bAwsSdk (line : Str) (st : ELState) : Option ELState :=
  (awsSdkCap line).map (fun cap =>
    let sig := "AWS: ".data ++ jsSlice 50 cap
    if st.seenErrors.contains sig then st
    else
      let stA := { st with seenErrors := addUniq sig st.seenErrors }
      let stF := flushError stA
      { stF with currentError := stF.currentError ++ ["AWS SDK: ".data ++ cap] })

/-- SQL-context branch (part_005 lines 660-665). -/
def bSqlCtx (line : Str) (st : ELState) : Option ELState :=
  if pfxOf "[SQL:".data line || pfxOf "[parameters:".data line then
    (if !st.currentError.isEmpty then
      some { st with currentError := st.currentError ++ [jsTrim line] }
    else some st)
  else none

/-- SQLAlchemy background-link branch (part_005 lines 668-670): skip. -/
def bBackground (line : Str) (st : ELState) : Option ELState :=
  if pfxOf "(Background on this error".data line then some st else none

/-- Generic context accumulation at the end of the loop body
(part_005 lines 673-678). -/
def fallbackCtx (line : Str) (st : ELState) : ELState :=
  if !st.currentError.isEmpty && !st.inStack &&
      decide (st.currentError.length < 5) then
    let t := jsTrim line
    if !t.isEmpty && decide (5 < t.length) then
      { st with currentError := st.currentError ++ [t] }
    else st
  else st

/-- The ordered branch table of the per-line dispatch
(part_005 lines 316-670). -/
def elBranches : List (Str → ELState → Option ELState) :=
  [bGoPanic, bGoSignal, bGoroutine, bGoFrame, bGoFile, bGoLog, bGinRecovery,
   bGorm, bK8s, bGoErrorField, bRetry, bProbe, bPyTraceback, bPyError,
   bPyFrame, bPyContext, bException, bSpringLog, bJsError, bBuildError,
   bAtFrame, bCausedBy, bModuleNotFound, bBullet, bWebpackSummary,
   bResolutionNoise, bResolveLine, bAwsSdk, bSqlCtx, bBackground]

/-- First branch that consumes the line wins; otherwise the generic
context accumulation runs. -/
def applyBranches : List (Str → ELState → Option ELState) → Str → ELState → ELState
  | [], line, st => fallbackCtx line st
  | b :: bs, line, st =>
    match b line st with
    | some st2 => st2
    | none => applyBranches bs line st

/-- The per-line dispatch after the APPLICATION-FAILED handling
(part_005 lines 293-678): noise suppression, code-context capture, then
the branch table. -/
def stepMain (line : Str) (st0 : ELState) : ELState :=
  if noisePatterns.any (fun p => p line) then st0
  else if codeNumTest line then
    let st1 := if !st0.inCodeCtx then flushError st0 else st0
    { st1 with inCodeCtx := true, codeCtx := st1.codeCtx ++ [jsTrim line] }
  else if pointerTest line then
    { st0 with codeCtx := st0.codeCtx ++ [jsTrim line] }
  else
    let st := if st0.inCodeCtx && !st0.codeCtx.isEmpty then flushCodeCtx st0 else st0
    applyBranches elBranches line st

/-- One full loop iteration (part_005 lines 264-679), including the
APPLICATION-FAILED block handling with its fall-through. -/
def stepLine (line : Str) (nextLine : Option Str) (st : ELState) : ELState :=
  if appOpenerTest line nextLine then
    { st with inAppBlock := true, appBlock := [] }
  else if st.inAppBlock then
    (if allStarsWsTest line then st
     else if dashSpaceTest line || dateStartTest line then
       stepMain line { st with inAppBlock := false }
     else
       let t := jsTrim line
       if t.isEmpty then st else { st with appBlock := st.appBlock ++ [t] })
  else stepMain line st

/-- Run the scanner over all lines (with one line of lookahead for the
APPLICATION-FAILED opener). -/
def runLines : List Str → ELState → ELState
  | [], st => st
  | l :: rest, st => runLines rest (stepLine l rest.head? st)

/-- The initial scan state. -/
def elInit : ELState := ⟨[], [], [], [], false, 0, [], false, [], false⟩

/-- `LocalOptimizer.optimizeErrorLog` (part_005 lines 131-701): run the
line scanner, flush, assemble the sections (plus the APPLICATION-FAILED
block and the fixed instruction header), and fall back to the raw input
when the result is empty. -/
def optimizeErrorLog (input : Str) : Str :=
  let stF := flushCodeCtx (flushError (runLines (splitNl input) elInit))
  let result0 := jsTrim (List.intercalate "\n\n".data stF.sections)
  let result1 :=
    if !stF.appBlock.isEmpty then
      result0 ++ "\n\nAPPLICATION FAILED TO START\n".data ++
        joinNl (stF.appBlock.filter
          (fun l => !hasSub "APPLICATION FAILED TO START".data l))
    else result0
  let result2 :=
    if !stF.sections.isEmpty || !stF.appBlock.isEmpty then
      "Fix these errors:\n\n".data ++ result1
    else result1
  if result2.isEmpty then input else result2

end LocalOptimizer

/-- Generic replace-all walker: `m` gives the match length and replacement
at a position; matches are non-overlapping, scanning left to right
(JavaScript `replace(/re/g, …)`).  The fuel is the string length. -/
def replaceAllF (m : Str → Option (Nat × Str)) : Nat → Str → Str
  | 0, s => s
  | fuel + 1, s =>
    match s with
    | [] => []
    | c :: t =>
      match m s with
      | some (n, rep) =>
        if n = 0 then c :: replaceAllF m fuel t
        else rep ++ replaceAllF m fuel (s.drop n)
      | none => c :: replaceAllF m fuel t

/-- Boundary-aware replace-all walker for patterns starting with `\b`:
`prev` is the character before the current position in the original
string. -/
def replaceAllFB (m : Str → Option (Nat × Str)) :
    Nat → Option Char → Str → Str
  | 0, _, s => s
  | fuel + 1, prev, s =>
    match s with
    | [] => []
    | c :: t =>
      let bOK :=
        match prev with
        | none => true
        | some pc => !isWordChar pc
      match (if bOK then m s else none) with
      | some (n, rep) =>
        if n = 0 then c :: replaceAllFB m fuel (some c) t
        else rep ++ replaceAllFB m fuel (some ((s.take n).getLastD c)) (s.drop n)
      | none => c :: replaceAllFB m fuel (some c) t

/-- Run a replace-all over a whole string. -/
def runRep (m : Str → Option (Nat × Str)) (s : Str) : Str :=
  replaceAllF m s.length s

/-- Run a boundary-aware replace-all over a whole string. -/
def runRepB (m : Str → Option (Nat × Str)) (s : Str) : Str :=
  replaceAllFB m s.length none s

/-- Replace all occurrences of a literal. -/
def runRepLit (pat rep : Str) (s : Str) : Str :=
  runRep (fun t => if pfxOf pat t then some (pat.length, rep) else none) s

/-- Words joined by `\s+`, case-insensitively; returns the rest. -/
def pWordsSeq : List Str → Str → Option Str
  | [], s => some s
  | [w], s => pLitCI w s
  | w :: ws, s =>
    (do
      let r ← pLitCI w s
      let r ← pWs1 r
      pWordsSeq ws r)

namespace LocalOptimizer

/-- The tech-stack vocabulary of `optimizePrompt` (part_005 line 708), in
alternation order. -/
def stackWords : List Str :=
  ["react".data, "vue".data, "angular".data, "typescript".data,
   "javascript".data, "python".data, "nodejs".data, "node.js".data,
   "dynamodb".data, "mongodb".data, "postgresql".data, "mysql".data,
   "redis".data, "aws".data, "gcp".data, "azure".data, "oauth".data,
   "nextjs".data, "express".data]

/-- One attempt of the stack regex at a position: the word must match
case-insensitively with a word boundary on each side; returns the matched
text in its original case. -/
def tryStackAt (prev : Option Char) (s : Str) : Option Str :=
  if (match prev with
      | none => true
      | some pc => !isWordChar pc) then
    stackWords.findSome? (fun w =>
      match pLitCI w s with
      | some r =>
        (match r with
         | c :: _ => if isWordChar c then none else some (s.take w.length)
         | [] => some (s.take w.length))
      | none => none)
  else none

/-- `input.match(/\b(react|…|express)\b/gi) || []` (part_005 line 708):
all matches in order, original case. -/
def collectStackGo : Nat → Option Char → Str → List Str
  | 0, _, _ => []
  | fuel + 1, prev, s =>
    match s with
    | [] => []
    | c :: t =>
      match tryStackAt prev s with
      | some m =>
        m :: collectStackGo fuel (some (m.getLastD c)) (s.drop m.length)
      | none => collectStackGo fuel (some c) t

/-- All stack-vocabulary matches of the input. -/
def collectStack (s : Str) : List Str := collectStackGo s.length none s

/-- `s.replace('.', '')`: remove the first dot only. -/
def removeFirstDot : Str → Str
  | [] => []
  | '.' :: t => t
  | c :: t => c :: removeFirstDot t

/-- Earliest closing fence: splits `s` at the first triple backtick. -/
def findCloseFence : Str → Option (Str × Str)
  | [] => none
  | c :: t =>
    if pfxOf "```".data (c :: t) then some ([], (c :: t).drop 3)
    else (findCloseFence t).map (fun p => (c :: p.1, p.2))

/-- `text.replace(/``…``-fence regex/g, cb)` (part_005 lines 716-719):
replace every fenced block `(three backticks)[\w]*\s*([\s\S]*?)(three
backticks)` by the `[[CODE]]` placeholder, collecting the trimmed
nonempty captures in order. -/
def extractFenced : Nat → Str → (Str × List Str)
  | 0, s => (s, [])
  | fuel + 1, s =>
    match s with
    | [] => ([], [])
    | c :: t =>
      if pfxOf "```".data s then
        let a1 := s.drop 3
        let a2 := a1.drop (a1.takeWhile isWordChar).length
        let a3 := a2.drop (a2.takeWhile isWsChar).length
        match findCloseFence a3 with
        | some (code, rest) =>
          let (t2, blocks) := extractFenced fuel rest
          ("\n[[CODE]]\n".data ++ t2,
           if (jsTrim code).isEmpty then blocks else jsTrim code :: blocks)
        | none =>
          let (t2, blocks) := extractFenced fuel t
          (c :: t2, blocks)
      else
        let (t2, blocks) := extractFenced fuel t
        (c :: t2, blocks)

/-- `text.replace(/`([^`]+)`/g, cb)` (part_005 lines 722-725): replace
every inline backtick span by the `[[INLINE]]` placeholder, collecting
trimmed nonempty captures. -/
def extractInline : Nat → Str → (Str × List Str)
  | 0, s => (s, [])
  | fuel + 1, s =>
    match s with
    | [] => ([], [])
    | '`' :: t =>
      let seg := t.takeWhile (fun c => decide (c ≠ '`'))
      if !seg.isEmpty && decide (seg.length < t.length) then
        let (t2, blocks) := extractInline fuel (t.drop (seg.length + 1))
        ("[[INLINE]]".data ++ t2,
         if (jsTrim seg).isEmpty then blocks else jsTrim seg :: blocks)
      else
        let (t2, blocks) := extractInline fuel t
        ('`' :: t2, blocks)
    | c :: t =>
      let (t2, blocks) := extractInline fuel t
      (c :: t2, blocks)

/-- `\s*[,!.]?\s*` — the tail of the greeting regex. -/
def afterPunctWs (r : Str) : Str :=
  let r1 := pWs0 r
  let r2 :=
    match r1 with
    | c :: t => if c = ',' || c = '!' || c = '.' then t else r1
    | [] => r1
  pWs0 r2

/-- `text.replace(/^(hey|hi|hello|please\?*|so|okay|alright|well)\s*[,!.]?\s*/i, '')`
(part_005 line 729): anchored greeting strip, alternatives in source
order. -/
def greetStrip (s : Str) : Str :=
  match
    (match pLitCI "hey".data s with
     | some r => some r
     | none =>
     match pLitCI "hi".data s with
     | some r => some r
     | none =>
     match pLitCI "hello".data s with
     | some r => some r
     | none =>
     match pLitCI "please".data s with
     | some r => some (r.dropWhile (fun c => c = '?'))
     | none =>
     match pLitCI "so".data s with
     | some r => some r
     | none =>
     match pLitCI "okay".data s with
     | some r => some r
     | none =>
     match pLitCI "alright".data s with
     | some r => some r
     | none => pLitCI "well".data s)
  with
  | some r => afterPunctWs r
  | none => s

/-- `i'?m` (contraction head of several junk patterns). -/
def pIm (s : Str) : Option Str :=
  (do
    let r ← pLitCI "i".data s
    let r :=
      match r with
      | c :: t => if c = apoChar then t else r
      | [] => r
    pLitCI "m".data r)

/-- `i'?ve`. -/
def pIve (s : Str) : Option Str :=
  (do
    let r ← pLitCI "i".data s
    let r :=
      match r with
      | c :: t => if c = apoChar then t else r
      | [] => r
    pLitCI "ve".data r)

/-- `don'?t`. -/
def pDont (s : Str) : Option Str :=
  (do
    let r ← pLitCI "don".data s
    let r :=
      match r with
      | c :: t => if c = apoChar then t else r
      | [] => r
    pLitCI "t".data r)

/-- `[^.!?\n]*[.!?]?\s*` — the common junk-pattern tail. -/
def pJunkTail (s : Str) : Str :=
  let r1 := s.dropWhile (fun c =>
    !(c = '.' || c = '!' || c = '?' || c = '\n'))
  let r2 :=
    match r1 with
    | c :: t => if c = '.' || c = '!' || c = '?' then t else r1
    | [] => r1
  pWs0 r2

/-- `[.!?]?\s*` — short junk-pattern tail. -/
def pPunctWsTail (s : Str) : Str :=
  let r1 :=
    match s with
    | c :: t => if c = '.' || c = '!' || c = '?' then t else s
    | [] => s
  pWs0 r1

/-- Optional `(kw\s+)?` group (greedy, taken when it fits). -/
def pOptWordWs (kw : Str) (s : Str) : Str :=
  match
    (do
      let r ← pLitCI kw s
      pWs1 r)
  with
  | some r => r
  | none => s

/-- Optional `(an?\s+)?` group with its internal backtracking. -/
def pOptAnWs (s : Str) : Str :=
  match
    (do
      let r ← pLitCI "an".data s
      pWs1 r)
  with
  | some r => r
  | none =>
    match
      (do
        let r ← pLitCI "a".data s
        pWs1 r)
    with
    | some r => r
    | none => s

/-- First alternative of a case-insensitive word list that matches. -/
def pAltCI (kws : List Str) (s : Str) : Option Str :=
  kws.findSome? (fun k => pLitCI k s)

/-- Junk pattern 1 (part_005 line 733):
`/i'?m\s+having\s+(this\s+)?(an?\s+)?(annoying\s+)?/gi`. -/
def j01 (s : Str) : Option Str :=
  (do
    let r ← pIm s
    let r ← pWs1 r
    let r ← pLitCI "having".data r
    let r ← pWs1 r
    let r := pOptWordWs "this".data r
    let r := pOptAnWs r
    some (pOptWordWs "annoying".data r))

/-- Junk pattern 2 (line 734):
`/i'?m\s+(so\s+)?(frustrated|confused|stuck|going\s+crazy)[^.!?\n]*[.!?]?\s*/gi`. -/
def j02 (s : Str) : Option Str :=
  (do
    let r ← pIm s
    let r ← pWs1 r
    let r := pOptWordWs "so".data r
    let r ← (pAltCI ["frustrated".data, "confused".data, "stuck".data] r) <|>
            (pWordsSeq ["going".data, "crazy".data] r)
    some (pJunkTail r))

/-- Junk pattern 3 (line 735):
`/i'?ve\s+been\s+(trying|working|debugging)[^.!?\n]*[.!?]?\s*/gi`. -/
def j03 (s : Str) : Option Str :=
  (do
    let r ← pIve s
    let r ← pWs1 r
    let r ← pLitCI "been".data r
    let r ← pWs1 r
    let r ← pAltCI ["trying".data, "working".data, "debugging".data] r
    some (pJunkTail r))

/-- Junk pattern 4 (line 736):
`/this\s+(is\s+)?(so\s+)?(frustrating|confusing|annoying|stupid)[^.!?\n]*[.!?]?\s*/gi`. -/
def j04 (s : Str) : Option Str :=
  (do
    let r ← pLitCI "this".data s
    let r ← pWs1 r
    let r := pOptWordWs "is".data r
    let r := pOptWordWs "so".data r
    let r ← pAltCI ["frustrating".data, "confusing".data, "annoying".data,
                    "stupid".data] r
    some (pJunkTail r))

/-- Junk pattern 5 (line 737): `/i'?ve\s+tried\s+everything[.!?]?\s*/gi`. -/
def j05 (s : Str) : Option Str :=
  (do
    let r ← pIve s
    let r ← pWs1 r
    let r ← pLitCI "tried".data r
    let r ← pWs1 r
    let r ← pLitCI "everything".data r
    some (pPunctWsTail r))

/-- Junk pattern 6 (line 738): `/nothing\s+(works|is\s+working)[.!?]?\s*/gi`. -/
def j06 (s : Str) : Option Str :=
  (do
    let r ← pLitCI "nothing".data s
    let r ← pWs1 r
    let r ← (pLitCI "works".data r) <|>
            (pWordsSeq ["is".data, "working".data] r)
    some (pPunctWsTail r))

/-- Junk pattern 7 (line 739):
`/(and\s+)?i\s+don'?t\s+know\s+(why|what\s+to\s+do)[^.!?\n]*[.!?]?\s*/gi`. -/
def j07 (s : Str) : Option Str :=
  (do
    let r := pOptWordWs "and".data s
    let r ← pLitCI "i".data r
    let r ← pWs1 r
    let r ← pDont r
    let r ← pWs1 r
    let r ← pLitCI "know".data r
    let r ← pWs1 r
    let r ← (pLitCI "why".data r) <|>
            (pWordsSeq ["what".data, "to".data, "do".data] r)
    some (pJunkTail r))

/-- Junk pattern 8 (line 741):
`/(please\s*)?(can\s+you\s+)?(please\s+)?help(\s+me)?(\s+fix)?(\s+this)?[.!?]?\s*/gi`. -/
def j08 (s : Str) : Option Str :=
  (do
    let r :=
      match pLitCI "please".data s with
      | some x => pWs0 x
      | none => s
    let r :=
      match
        (do
          let x ← pLitCI "can".data r
          let x ← pWs1 x
          let x ← pLitCI "you".data x
          pWs1 x)
      with
      | some x => x
      | none => r
    let r := pOptWordWs "please".data r
    let r ← pLitCI "help".data r
    let r :=
      match
        (do
          let x ← pWs1 r
          pLitCI "me".data x)
      with
      | some x => x
      | none => r
    let r :=
      match
        (do
          let x ← pWs1 r
          pLitCI "fix".data x)
      with
      | some x => x
      | none => r
    let r :=
      match
        (do
          let x ← pWs1 r
          pLitCI "this".data x)
      with
      | some x => x
      | none => r
    some (pPunctWsTail r))

/-- Junk pattern 9 (line 742):
`/my\s+(deadline|boss|manager)[^.!?\n]*[.!?]?\s*/gi`. -/
def j09 (s : Str) : Option Str :=
  (do
    let r ← pLitCI "my".data s
    let r ← pWs1 r
    let r ← pAltCI ["deadline".data, "boss".data, "manager".data] r
    some (pJunkTail r))

/-- Junk pattern 10 (line 743):
`/i\s+(really\s+)?need\s+this\s+working[^.!?\n]*[.!?]?\s*/gi`. -/
def j10 (s : Str) : Option Str :=
  (do
    let r ← pLitCI "i".data s
    let r ← pWs1 r
    let r := pOptWordWs "really".data r
    let r ← pWordsSeq ["need".data, "this".data, "working".data] r
    some (pJunkTail r))

/-- Junk pattern 11 (line 745): `/that\s+occurs?\s+up\.?\s*/gi`. -/
def j11 (s : Str) : Option Str :=
  (do
    let r ← pLitCI "that".data s
    let r ← pWs1 r
    let r ← pLitCI "occur".data r
    let r ←
      (match r with
       | c :: t =>
         if lowerChar c = 's' then (pWs1 t) <|> (pWs1 r) else pWs1 r
       | [] => none)
    let r ← pLitCI "up".data r
    let r :=
      match r with
      | '.' :: t => t
      | _ => r
    some (pWs0 r))

/-- Junk pattern 12 (line 746): `/it\?+\.+\s*/gi`. -/
def j12 (s : Str) : Option Str :=
  (do
    let r ← pLitCI "it".data s
    let q := r.takeWhile (fun c => c = '?')
    if q.isEmpty then none
    else
      let r2 := r.drop q.length
      let d := r2.takeWhile (fun c => c = '.')
      if d.isEmpty then none
      else some (pWs0 (r2.drop d.length)))

/-- Last index of a case-insensitive occurrence of `pat` in `s`. -/
def lastSubIdxCI (pat s : Str) : Option Nat :=
  let rec go : Str → Nat → Option Nat → Option Nat
    | [], _, best => best
    | c :: t, i, best =>
      go t (i + 1) (if pfxOfCI pat (c :: t) then some i else best)
  go s 0 none

/-- Junk pattern 13 (line 747): `/i\s+tried[^.!?\n]*but\.?\s*/gi`: the
greedy middle backtracks to the LAST `but` inside the run of characters
allowed by the class. -/
def j13 (s : Str) : Option Str :=
  (do
    let r ← pLitCI "i".data s
    let r ← pWs1 r
    let r ← pLitCI "tried".data r
    let run := r.takeWhile (fun c =>
      !(c = '.' || c = '!' || c = '?' || c = '\n'))
    let idx ← lastSubIdxCI "but".data run
    let r2 := r.drop (idx + 3)
    let r2 :=
      match r2 with
      | '.' :: t => t
      | _ => r2
    some (pWs0 r2))

/-- `(to\s+be\s+)?` group of junk pattern 14. -/
def pOptToBe (s : Str) : Str :=
  match
    (do
      let x ← pLitCI "to".data s
      let x ← pWs1 x
      let x ← pLitCI "be".data x
      pWs1 x)
  with
  | some x => x
  | none => s

/-- `[^.!?\n]*\.?\s*` — junk-pattern-14 tail. -/
def pJunkTailDot (s : Str) : Str :=
  let r1 := s.dropWhile (fun c =>
    !(c = '.' || c = '!' || c = '?' || c = '\n'))
  let r2 :=
    match r1 with
    | '.' :: t => t
    | _ => r1
  pWs0 r2

/-- Junk pattern 14 (line 748):
`/i\s+need\s+(this\s+)?(code\s+)?(to\s+be\s+)?(super\s+)?(advanced|good|perfect)[^.!?\n]*\.?\s*/gi`. -/
def j14 (s : Str) : Option Str :=
  (do
    let r ← pLitCI "i".data s
    let r ← pWs1 r
    let r ← pLitCI "need".data r
    let r ← pWs1 r
    let r := pOptWordWs "this".data r
    let r := pOptWordWs "code".data r
    let r := pOptToBe r
    let r := pOptWordWs "super".data r
    let r ← pAltCI ["advanced".data, "good".data, "perfect".data] r
    some (pJunkTailDot r))

/-- The ordered junk-pattern table (part_005 lines 731-749). -/
def junkMs : List (Str → Option Str) :=
  [j01, j02, j03, j04, j05, j06, j07, j08, j09, j10, j11, j12, j13, j14]

/-- Apply all junk patterns in order, each as a global replace by a single
space (part_005 lines 751-753). -/
def applyJunk (t : Str) : Str :=
  junkMs.foldl (fun acc j =>
    runRep (fun s => (j s).map (fun r => (s.length - r.length, [' ']))) acc) t

/-- `[.!?]*\s*$` — end test of the sign-off regex. -/
def sgEnd (r : Str) : Bool :=
  (r.dropWhile (fun c => c = '.' || c = '!' || c = '?')).all isWsChar

/-- Does the sign-off regex
`/thanks?\s*(so\s+much|in\s+advance|a\s+lot|you)?[.!?]*\s*$/gi`
(part_005 line 756) match starting at this position? -/
def signoffAt (s : Str) : Bool :=
  match pLitCI "thank".data s with
  | none => false
  | some r0 =>
    let cands :=
      match r0 with
      | c :: t => if lowerChar c = 's' then [t, r0] else [r0]
      | [] => [r0]
    cands.any (fun r =>
      let r1 := pWs0 r
      let afterG :=
        (match pWordsSeq ["so".data, "much".data] r1 with
         | some x => [x]
         | none => []) ++
        (match pWordsSeq ["in".data, "advance".data] r1 with
         | some x => [x]
         | none => []) ++
        (match pWordsSeq ["a".data, "lot".data] r1 with
         | some x => [x]
         | none => []) ++
        (match pLitCI "you".data r1 with
         | some x => [x]
         | none => []) ++ [r1]
      afterG.any sgEnd)

/-- Strip the sign-off: the match is anchored at the end of the string, so
the leftmost matching start cuts the rest. -/
def signoffStrip : Str → Str
  | [] => []
  | c :: t => if signoffAt (c :: t) then [] else c :: signoffStrip t

/-- Single-word fillers (part_005 line 759). -/
def fillerWords1 : List Str :=
  ["basically".data, "honestly".data, "really".data, "actually".data,
   "literally".data, "just".data, "very".data, "simply".data,
   "obviously".data, "anymore".data]

/-- Matcher for `/\b(basically|…|anymore)\b/gi` (replacement empty). -/
def fillerM1 (s : Str) : Option (Nat × Str) :=
  fillerWords1.findSome? (fun w =>
    match pLitCI w s with
    | some r =>
      (match r with
       | c :: _ => if isWordChar c then none else some (w.length, [])
       | [] => some (w.length, []))
    | none => none)

/-- Two-word hedging fillers (part_005 line 760). -/
def fillerPhrases : List (List Str) :=
  [["i".data, "think".data], ["i".data, "believe".data],
   ["i".data, "guess".data], ["you".data, "know".data],
   ["i".data, "mean".data]]

/-- Matcher for `/\b(i\s+think|i\s+believe|i\s+guess|you\s+know|i\s+mean)\b/gi`. -/
def fillerM2 (s : Str) : Option (Nat × Str) :=
  fillerPhrases.findSome? (fun ws =>
    match pWordsSeq ws s with
    | some r =>
      (match r with
       | c :: _ => if isWordChar c then none else some (s.length - r.length, [])
       | [] => some (s.length - r.length, []))
    | none => none)

/-- Condensers 1-4 (part_005 lines 764-767) share the shape
`words … \s+ alternation \s+ (a\s+)?` with replacement `Build: `;
this builds one such matcher. -/
def buildCondenser (lead : List Str) (alts : List Str) (s : Str) :
    Option (Nat × Str) :=
  (do
    let r ← pWordsSeq lead s
    let r ← pWs1 r
    let r ← pAltCI alts r
    let r ← pWs1 r
    let r := pOptWordWs "a".data r
    some (s.length - r.length, "Build: ".data))

/-- Condenser 1: `/\bi\s+want\s+to\s+build\s+(a\s+)?/gi` to `Build: `
(line 764). -/
def c01 (s : Str) : Option (Nat × Str) :=
  (do
    let r ← pWordsSeq ["i".data, "want".data, "to".data, "build".data] s
    let r ← pWs1 r
    let r := pOptWordWs "a".data r
    some (s.length - r.length, "Build: ".data))

/-- Condenser 2:
`/\bi\s+would\s+like\s+(to\s+)?(build|create|make|have)\s+(a\s+)?/gi`
to `Build: ` (line 765). -/
def c02 (s : Str) : Option (Nat × Str) :=
  (do
    let r ← pWordsSeq ["i".data, "would".data, "like".data] s
    let r ← pWs1 r
    let r := pOptWordWs "to".data r
    let r ← pAltCI ["build".data, "create".data, "make".data, "have".data] r
    let r ← pWs1 r
    let r := pOptWordWs "a".data r
    some (s.length - r.length, "Build: ".data))

/-- Condenser 3:
`/\bi\s+need\s+to\s+(build|create|make|implement)\s+(a\s+)?/gi`
to `Build: ` (line 766). -/
def c03 (s : Str) : Option (Nat × Str) :=
  buildCondenser ["i".data, "need".data, "to".data]
    ["build".data, "create".data, "make".data, "implement".data] s

/-- Condenser 4: `/\bi\s+want\s+to\s+(create|make|implement)\s+(a\s+)?/gi`
to `Build: ` (line 767). -/
def c04 (s : Str) : Option (Nat × Str) :=
  buildCondenser ["i".data, "want".data, "to".data]
    ["create".data, "make".data, "implement".data] s

/-- A words-then-trailing-`\s+` condenser with a fixed replacement. -/
def wordsCondenser (ws : List Str) (rep : Str) (s : Str) :
    Option (Nat × Str) :=
  (do
    let r ← pWordsSeq ws s
    let r ← pWs1 r
    some (s.length - r.length, rep))

/-- Condenser 9: `/\bthere\s+should\s+(only\s+)?(ever\s+)?be\s+/gi` to
`Constraint: ` (line 772). -/
def c09 (s : Str) : Option (Nat × Str) :=
  (do
    let r ← pWordsSeq ["there".data, "should".data] s
    let r ← pWs1 r
    let r := pOptWordWs "only".data r
    let r := pOptWordWs "ever".data r
    let r ← pLitCI "be".data r
    let r ← pWs1 r
    some (s.length - r.length, "Constraint: ".data))

/-- One alternative with its original-case capture. -/
def pAltCap (kws : List Str) (s : Str) : Option (Str × Str) :=
  kws.findSome? (fun k => (pLitCI k s).map (fun r => (s.take k.length, r)))

/-- `,?`. -/
def pOptComma (s : Str) : Str :=
  match s with
  | ',' :: t => t
  | _ => s

/-- `\.?\.?\.?`. -/
def upTo3Dots (s : Str) : Str :=
  let s1 :=
    match s with
    | '.' :: t => t
    | _ => s
  let s2 :=
    match s1 with
    | '.' :: t => t
    | _ => s1
  match s2 with
  | '.' :: t => t
  | _ => s2

/-- Condenser 12 (line 775):
`/\b(futuristic|modern),?\s*(clean|minimal),?\s*(dark|light),?\s*(looking|themed|style)?\.?\.?\.?\s*/gi`
with replacement `UI: $1, $2, $3. ` (the three captures keep their
original case). -/
def c12 (s : Str) : Option (Nat × Str) :=
  (do
    let (c1, r) ← pAltCap ["futuristic".data, "modern".data] s
    let r := pWs0 (pOptComma r)
    let (c2, r) ← pAltCap ["clean".data, "minimal".data] r
    let r := pWs0 (pOptComma r)
    let (c3, r) ← pAltCap ["dark".data, "light".data] r
    let r := pWs0 (pOptComma r)
    let r :=
      match pAltCI ["looking".data, "themed".data, "style".data] r with
      | some x => x
      | none => r
    let r := pWs0 (upTo3Dots r)
    some (s.length - r.length,
      "UI: ".data ++ c1 ++ ", ".data ++ c2 ++ ", ".data ++ c3 ++ ". ".data))

/-- Condenser 13: `/\b(a\s+)?feature\s+for\s+(a\s+)?/gi` to the empty
string (line 776). -/
def c13 (s : Str) : Option (Nat × Str) :=
  (do
    let r := pOptWordWs "a".data s
    let r ← pLitCI "feature".data r
    let r ← pWs1 r
    let r ← pLitCI "for".data r
    let r ← pWs1 r
    let r := pOptWordWs "a".data r
    some (s.length - r.length, []))

/-- Condenser 14: `/\b(a\s+)?user\s+login\s+screen/gi` to `login screen`
(line 777). -/
def c14 (s : Str) : Option (Nat × Str) :=
  (do
    let r := pOptWordWs "a".data s
    let r ← pWordsSeq ["user".data, "login".data, "screen".data] r
    some (s.length - r.length, "login screen".data))

/-- Condenser 15: `/\btied\s+to\s+an?\s+account/gi` to `per account`
(line 778). -/
def c15 (s : Str) : Option (Nat × Str) :=
  (do
    let r ← pWordsSeq ["tied".data, "to".data] s
    let r ← pWs1 r
    let r ←
      (match pLitCI "an".data r with
       | some x =>
         (pWs1 x) <|>
         (do
           let y ← pLitCI "a".data r
           pWs1 y)
       | none =>
         (do
           let y ← pLitCI "a".data r
           pWs1 y))
    let r ← pLitCI "account".data r
    some (s.length - r.length, "per account".data))

/-- Condenser 16: `/\b1\s+email\s+/gi` to `unique email ` (line 779). -/
def c16 (s : Str) : Option (Nat × Str) :=
  (do
    let r ← pLitCI "1".data s
    let r ← pWs1 r
    let r ← pLitCI "email".data r
    let r ← pWs1 r
    some (s.length - r.length, "unique email ".data))

/-- The ordered condenser table (part_005 lines 763-780). -/
def condensers : List (Str → Option (Nat × Str)) :=
  [c01, c02, c03, c04,
   wordsCondenser ["the".data, "system".data, "should".data, "use".data]
     "Use: ".data,
   wordsCondenser ["it".data, "should".data, "use".data] "Use: ".data,
   wordsCondenser ["i".data, "would".data, "like".data, "it".data,
     "to".data, "be".data] [],
   wordsCondenser ["it".data, "should".data, "be".data] [],
   c09,
   wordsCondenser ["stored".data, "in".data] "Store: ".data,
   wordsCondenser ["sstored".data, "in".data] "Store: ".data,
   c12, c13, c14, c15, c16]

/-- Cleanup `/\s+/g` to a single space (part_005 line 792). -/
def clWs (s : Str) : Option (Nat × Str) :=
  match s with
  | c :: _ =>
    if isWsChar c then some ((s.takeWhile isWsChar).length, [' ']) else none
  | [] => none

/-- Cleanup `/\s*([.!?,])\s*/g` to `$1 ` (line 793). -/
def clPunct (s : Str) : Option (Nat × Str) :=
  let j := (s.takeWhile isWsChar).length
  match s.drop j with
  | c :: t =>
    if c = '.' || c = '!' || c = '?' || c = ',' then
      some (j + 1 + (t.takeWhile isWsChar).length, [c, ' '])
    else none
  | [] => none

/-- Cleanup `/([.!?])\s*([.!?])+/g` to `$1` (line 794). -/
def clPunctRun (s : Str) : Option (Nat × Str) :=
  match s with
  | c :: t =>
    if c = '.' || c = '!' || c = '?' then
      let j := (t.takeWhile isWsChar).length
      let run := (t.drop j).takeWhile (fun d => d = '.' || d = '!' || d = '?')
      if run.isEmpty then none else some (1 + j + run.length, [c])
    else none
  | [] => none

/-- Cleanup `/^\s*[.!?,]\s*/g` to the empty string (anchored, line 795). -/
def clLeadPunct (t : Str) : Str :=
  let j := (t.takeWhile isWsChar).length
  match t.drop j with
  | c :: r =>
    if c = '.' || c = '!' || c = '?' || c = ',' then pWs0 r else t
  | [] => t

/-- Does `/\s*[.!?,]\s*$/` match starting here (reaching the end)? -/
def trailPunctAt (s : Str) : Bool :=
  let j := (s.takeWhile isWsChar).length
  match s.drop j with
  | c :: r =>
    (c = '.' || c = '!' || c = '?' || c = ',') && r.all isWsChar
  | [] => false

/-- Cleanup `/\s*[.!?,]\s*$/g` to the empty string (line 796). -/
def clTrailPunct : Str → Str
  | [] => []
  | c :: t => if trailPunctAt (c :: t) then [] else c :: clTrailPunct t

/-- Cleanup `/:\s*:/g` to `:` (line 797). -/
def clColonM (s : Str) : Option (Nat × Str) :=
  match s with
  | ':' :: t =>
    let j := (t.takeWhile isWsChar).length
    (match t.drop j with
     | ':' :: _ => some (j + 2, [':'])
     | _ => none)
  | _ => none

/-- Cleanup `/\.\s*\./g` to `.` (line 798). -/
def clDotM (s : Str) : Option (Nat × Str) :=
  match s with
  | '.' :: t =>
    let j := (t.takeWhile isWsChar).length
    (match t.drop j with
     | '.' :: _ => some (j + 2, ['.'])
     | _ => none)
  | _ => none

/-- Cleanup `/Build:\s*Build:/gi` to `Build:` (line 799). -/
def clBuildM (s : Str) : Option (Nat × Str) :=
  (do
    let r ← pLitCI "Build:".data s
    let r := pWs0 r
    let r ← pLitCI "Build:".data r
    some (s.length - r.length, "Build:".data))

/-- `/\n{3,}/g` to two newlines (line 818). -/
def clNl3 (s : Str) : Option (Nat × Str) :=
  let run := s.takeWhile (fun c => c = '\n')
  if 3 ≤ run.length then some (run.length, ['\n', '\n']) else none

/-- `LocalOptimizer.optimizePrompt` (part_005 lines 706-821): tech-stack
extraction, code-block protection, fluff removal, condensation, cleanup
and reassembly, falling back to the raw input when the result is empty. -/
def optimizePrompt (input : Str) : Str :=
  let stack :=
    (((collectStack input).map (fun m => removeFirstDot (lowerStr m))).foldl
      (fun acc x => addUniq x acc) []).take 4
  let fenced := extractFenced input.length input
  let inl := extractInline fenced.1.length fenced.1
  let codeBlocks := fenced.2 ++ inl.2
  let t1 := greetStrip inl.1
  let t2 := applyJunk t1
  let t3 := signoffStrip t2
  let t4 := runRepB fillerM2 (runRepB fillerM1 t3)
  let t5 := condensers.foldl (fun acc c => runRepB c acc) t4
  let t6 := runRepLit "[[CODE]]".data [] (runRepLit "[[INLINE]]".data [] t5)
  let t7 := runRep clPunctRun (runRep clPunct (runRep clWs t6))
  let t8 := clTrailPunct (clLeadPunct t7)
  let t9 := runRep clBuildM (runRep clDotM (runRep clColonM t8))
  let text := jsTrim t9
  let parts :=
    (if !stack.isEmpty then
      [['['] ++ List.intercalate ", ".data stack ++ [']']]
     else []) ++
    (if decide (10 < text.length) then [text] else []) ++
    codeBlocks.map (fun code => "```\n".data ++ code ++ "\n```".data)
  let res := jsTrim (runRep clNl3 (jsTrim (joinNl parts)))
  if res.isEmpty then input else res

end LocalOptimizer

/-- The result record of `LocalOptimizer.optimize` (part_005 lines 6-14). -/
structure OptimizeResult where
  original : Str
  optimized : Str
  originalTokens : Nat
  optimizedTokens : Nat
  savings : Nat
  intent : Str
  estimatedOutputSavings : Nat
deriving Repr, DecidableEq

namespace LocalOptimizer

/-- `Math.max(0, Math.round((1 - o / g) * 100))` for `g > 0`, with exact
rational half-up rounding (`Int.fdiv` is floor division). -/
def jsRoundSavings (g o : Nat) : Nat :=
  (Int.fdiv (200 * ((g : Int) - (o : Int)) + (g : Int)) (2 * (g : Int))).toNat

/-- The classify-then-rewrite step of `optimize` (part_005 lines 42-53):
error logs go to the condenser, prompts to the conversational rewriter. -/
def transformed (t : Str) : Str :=
  if isErrorLog t then optimizeErrorLog t else optimizePrompt t

/-- `LocalOptimizer.optimize` (part_005 lines 24-73): trim, handle empty
input, classify, rewrite, apply the 5%-shrink guardrail
(`optimized.length >= original.length * 0.95`, i.e. `20·|opt| ≥ 19·|orig|`),
and compute the token and savings metrics. -/
def optimize (input : Str) : OptimizeResult :=
  let original := jsTrim input
  if original.isEmpty then
    { original := input, optimized := [], originalTokens := 0,
      optimizedTokens := 0, savings := 0, intent := "general".data,
      estimatedOutputSavings := 0 }
  else
    let originalTokens := estimateTokens original
    let isLog := isErrorLog original
    let optimized0 := transformed original
    let intent := if isLog then "debug".data else detectIntent original
    let optimized :=
      if 19 * original.length ≤ 20 * optimized0.length then original
      else optimized0
    let optimizedTokens := estimateTokens optimized
    let savings :=
      if optimized = original then 0
      else jsRoundSavings originalTokens optimizedTokens
    let eos :=
      if 50 ≤ savings then (savings + 1) / 2 else (3 * savings + 5) / 10
    { original := input, optimized := optimized,
      originalTokens := originalTokens, optimizedTokens := optimizedTokens,
      savings := savings, intent := intent, estimatedOutputSavings := eos }

end LocalOptimizer

/-- Concrete log input: a Python-style traceback in which the same
exception declaration line occurs three times. -/
def exInput6 : Str :=
  ("Traceback (most recent call last):\nValueError: x is None\n" ++
   "ValueError: x is None\nValueError: x is None").data

/-- `exInput6` with surrounding whitespace (a newline before, a space
after). -/
def exPadded : Str := '\n' :: exInput6 ++ [' ']

/-- Concrete log input: one exception followed by ten distinct JS stack
frames. -/
def exInput7 : Str :=
  ("ValueError: boom\n  at f1 (a.js:1:1)\n  at f2 (a.js:2:2)\n" ++
   "  at f3 (a.js:3:3)\n  at f4 (a.js:4:4)\n  at f5 (a.js:5:5)\n" ++
   "  at f6 (a.js:6:6)\n  at f7 (a.js:7:7)\n  at f8 (a.js:8:8)\n" ++
   "  at f9 (a.js:9:9)\n  at f10 (a.js:10:10)").data

-- THEOREMS

/-- C4 (counterexample): the claim says `estimateTokens` returns 0 for
whitespace-only input, but on the single-space string the source returns
`ceil(1/4) = 1` (the JavaScript falsiness guard `!text` only catches the
empty string). -/
theorem c4_counterexample : LocalOptimizer.estimateTokens [' '] = 1 := by
  decide

/-- C4 (amended): `estimateTokens` returns 0 exactly for the empty string;
for any nonempty text (including whitespace-only) it returns
`ceil(length/3.5)` when a code marker is present and `ceil(length/4)`
otherwise; in particular 400 letters without code give 100 tokens. -/
theorem c4_amended :
    LocalOptimizer.estimateTokens [] = 0 ∧
    (∀ s : Str, s ≠ [] →
      LocalOptimizer.estimateTokens s =
        (if LocalOptimizer.hasCode s then (2 * s.length + 6) / 7
         else (s.length + 3) / 4)) ∧
    LocalOptimizer.estimateTokens (List.replicate 400 'a') = 100 := by
  refine ⟨rfl, ?_, ?_⟩
  · intro s hs
    simp [LocalOptimizer.estimateTokens, List.isEmpty_iff, hs]
  · decide

/-- C4 (witness for the amended universal part): instantiated at the
single-space string, where the value is `ceil(1/4) = 1`. -/
theorem c4_witness :
    ([' '] : Str) ≠ [] ∧ LocalOptimizer.estimateTokens [' '] = 1 := by
  refine ⟨by decide, ?_⟩
  have h := c4_amended.2.1 [' '] (by decide)
  simpa using h

/-- C5 (counterexample): the extension and the backend disagree on the
string made of one backtick followed by fourteen letters: the extension
regex sees no complete inline span (divisor 4, result 4) while the backend
`includes` test sees a backtick (divisor 3.5, result 5). -/
theorem c5_counterexample :
    LocalOptimizer.estimateTokens ('`' :: List.replicate 14 'a') = 4 ∧
    BackendUsers.estimateTokens ('`' :: List.replicate 14 'a') = 5 := by
  constructor <;> decide

/-- C5 (amended): whenever the two code-detection rules agree on an input,
the two `estimateTokens` implementations return the same value; they can
differ only on texts whose backticks form neither a fence marker nor a
complete inline span. -/
theorem c5_amended (s : Str)
    (h : LocalOptimizer.hasCode s = BackendUsers.hasCode s) :
    LocalOptimizer.estimateTokens s = BackendUsers.estimateTokens s := by
  rcases s with _ | ⟨c, t⟩
  · decide
  · simp only [LocalOptimizer.estimateTokens, BackendUsers.estimateTokens,
      List.isEmpty_cons, if_false, Bool.false_eq_true, h]

/-- C5 (witness): on `"abc"` both detectors answer `false` and both
estimators return `ceil(3/4) = 1`. -/
theorem c5_witness :
    LocalOptimizer.hasCode ['a', 'b', 'c'] = BackendUsers.hasCode ['a', 'b', 'c'] ∧
    LocalOptimizer.estimateTokens ['a', 'b', 'c'] =
      BackendUsers.estimateTokens ['a', 'b', 'c'] := by
  refine ⟨by decide, c5_amended ['a', 'b', 'c'] (by decide)⟩

/-- C2: `isErrorLog` returns `true` iff at least two distinct patterns from
its fixed, ordered indicator list match somewhere in the input. -/
theorem c2_classifier_threshold (s : Str) :
    LocalOptimizer.isErrorLog s = true ↔
      2 ≤ List.countP (fun p => p s) LocalOptimizer.indicators := by
  simp [LocalOptimizer.isErrorLog, List.countP_eq_length_filter]

/-- C2 (witness): on a concrete two-signature input the classifier answers
`true` and the count of matching indicators is at least 2. -/
theorem c2_witness :
    LocalOptimizer.isErrorLog "npm ERR!\nENOENT".data = true ∧
      2 ≤ List.countP (fun p => p "npm ERR!\nENOENT".data)
            LocalOptimizer.indicators :=
  ⟨(c2_classifier_threshold "npm ERR!\nENOENT".data).mpr (by decide), by decide⟩

/-- C3 (counterexample): the claim says the single line
`at foo (bar.js:1:1)` classifies as NOT an error log, but it matches two
indicators (the JS-stack-frame pattern and the lines-starting-with-`at`
pattern), so `isErrorLog` returns `true` on it. -/
theorem c3_counterexample :
    LocalOptimizer.isErrorLog "at foo (bar.js:1:1)".data = true ∧
      List.countP (fun p => p "at foo (bar.js:1:1)".data)
        LocalOptimizer.indicators = 2 := by
  constructor <;> decide

/-- C3 (amended): `at foo (bar.js:1:1)` already matches two signatures and
so classifies as an error log; a string matching exactly one signature —
the single line `Traceback (most recent call last):` — classifies as NOT
an error log, and adding a second independent signature (an `npm ERR!`
line) makes it classify as an error log. -/
theorem c3_amended :
    LocalOptimizer.isErrorLog "Traceback (most recent call last):".data = false ∧
      List.countP (fun p => p "Traceback (most recent call last):".data)
        LocalOptimizer.indicators = 1 ∧
      LocalOptimizer.isErrorLog
        "Traceback (most recent call last):\nnpm ERR!".data = true := by
  refine ⟨by decide, by decide, by decide⟩

/-- C8 (counterexample): the claim says the returned tag is always one of
the five `fix`, `explain`, `implement`, `optimize`, `general`, but the
backend has a sixth bucket: on the input `"trace"` it returns `debug`. -/
theorem c8_counterexample :
    BackendUsers.detectIntent "trace".data = "debug".data ∧
      ¬ ("debug".data ∈ (["fix".data, "explain".data, "implement".data,
            "optimize".data, "general".data] : List Str)) := by
  constructor <;> decide

/-- C8 (amended): backend intent detection is a case-insensitive keyword
scan over six ordered buckets — `fix`, then `explain`, then `implement`,
then `optimize`, then `debug`, with fallback `general` — where the first
bucket whose keyword set matches wins; the extension detector uses four
ordered buckets `debug` > `explain` > `create` > `general`. -/
theorem c8_amended (s : Str) :
    BackendUsers.detectIntent s =
      (if BackendUsers.hitsBucket BackendUsers.fixKws s then "fix".data
       else if BackendUsers.hitsBucket BackendUsers.explainKws s then "explain".data
       else if BackendUsers.hitsBucket BackendUsers.implementKws s then "implement".data
       else if BackendUsers.hitsBucket BackendUsers.optimizeKws s then "optimize".data
       else if BackendUsers.hitsBucket BackendUsers.debugKws s then "debug".data
       else "general".data) ∧
    (BackendUsers.detectIntent s ∈ (["fix".data, "explain".data,
        "implement".data, "optimize".data, "debug".data,
        "general".data] : List Str)) ∧
    (LocalOptimizer.detectIntent s ∈ (["debug".data, "explain".data,
        "create".data, "general".data] : List Str)) := by
  refine ⟨rfl, ?_, ?_⟩
  · unfold BackendUsers.detectIntent
    split
    · simp
    · split
      · simp
      · split
        · simp
        · split
          · simp
          · split <;> simp
  · simp only [LocalOptimizer.detectIntent]
    split
    · simp
    · split
      · simp
      · split <;> simp

/-- C1 (counterexample): on an error-log input padded with surrounding
whitespace, the condense pipeline does not shrink the text (the guardrail
hypothesis of the claim holds), yet `optimized` is the TRIMMED input, not
the raw input verbatim: the claim `optimized == original` fails. -/
theorem c1_counterexample :
    19 * (jsTrim exPadded).length ≤
      20 * (LocalOptimizer.transformed (jsTrim exPadded)).length ∧
    (LocalOptimizer.optimize exPadded).optimized ≠ exPadded := by
  constructor <;> decide

/-- C1 (amended): for every input whose trimmed form is nonempty, whenever
the rewrite/condense pipeline does not make the text at least 5% shorter
than the trimmed input, `optimize` returns the TRIMMED input as
`optimized` (hence the raw input verbatim exactly when the input carries
no surrounding whitespace) and a savings percentage of 0. -/
theorem c1_amended (s : Str) (h1 : jsTrim s ≠ [])
    (h2 : 19 * (jsTrim s).length ≤
      20 * (LocalOptimizer.transformed (jsTrim s)).length) :
    (LocalOptimizer.optimize s).optimized = jsTrim s ∧
      (LocalOptimizer.optimize s).savings = 0 := by
  have hne : (jsTrim s).isEmpty = false := by
    simp [List.isEmpty_iff, h1]
  simp [LocalOptimizer.optimize, hne, h2]

/-- C1 (witness): the amended theorem applied to the padded log input. -/
theorem c1_witness :
    (LocalOptimizer.optimize exPadded).optimized = jsTrim exPadded ∧
      (LocalOptimizer.optimize exPadded).savings = 0 :=
  c1_amended exPadded (by decide) (by decide)

/-- C6 (code bug): on an error-log input repeating the same
`ValueError: x is None` line three times, the condensed output is the
input itself — containing THREE occurrences of the declaration, not
exactly one.  The exception branch registers the block signature before
the block is flushed, so `flushError` discards the first block by its own
signature, no sections are produced, and the function falls back to
returning the raw input. -/
theorem c6_dedup_bug :
    LocalOptimizer.isErrorLog exInput6 = true ∧
    LocalOptimizer.optimizeErrorLog exInput6 = exInput6 ∧
    (splitNl (LocalOptimizer.optimizeErrorLog exInput6)).countP
      (fun l => decide (l = "ValueError: x is None".data)) = 3 := by
  refine ⟨by decide, by decide, by decide⟩

/-- C7 (code bug): on an error-log input with one short-message exception
and ten distinct stack frames, the condensed output is the input itself
and contains TEN frame lines, not at most three: the same flush-time
self-collision as in C6 discards the (correctly capped) block, and the
empty result falls back to the raw input. -/
theorem c7_stack_cap_bug :
    LocalOptimizer.isErrorLog exInput7 = true ∧
    LocalOptimizer.optimizeErrorLog exInput7 = exInput7 ∧
    (splitNl (LocalOptimizer.optimizeErrorLog exInput7)).countP
      (fun l => LocalOptimizer.atFrameTest l) = 10 := by
  refine ⟨by decide, by decide, by decide⟩

/-- C9: `optimize` is a total function of the input string (the embedding
itself returns normally on every input), and on empty or whitespace-only
input it returns the all-zero result rather than an error. -/
theorem c9_empty_input (s : Str) (h : jsTrim s = []) :
    LocalOptimizer.optimize s =
      { original := s, optimized := [], originalTokens := 0,
        optimizedTokens := 0, savings := 0, intent := "general".data,
        estimatedOutputSavings := 0 } := by
  have hne : (jsTrim s).isEmpty = true := by
    simp [List.isEmpty_iff, h]
  simp [LocalOptimizer.optimize, hne]

/-- C9 (witness): the whitespace-only input of three spaces. -/
theorem c9_witness :
    LocalOptimizer.optimize "   ".data =
      { original := "   ".data, optimized := [], originalTokens := 0,
        optimizedTokens := 0, savings := 0, intent := "general".data,
        estimatedOutputSavings := 0 } :=
  c9_empty_input "   ".data (by decide)

/-- C10: the `original` field of the result of `optimize` is always the
raw, untrimmed input, in both the empty-input branch and the normal
branch. -/
theorem c10_original_verbatim (s : Str) :
    (LocalOptimizer.optimize s).original = s := by
  simp only [LocalOptimizer.optimize]
  split <;> rfl
